/-
  Verification of the StockScanner-IN-AU screening core.

  Shallow embedding of the scanners in `src/btst_scanner.py`,
  `src/swing_scanner.py`, `src/markets/australia/swing_scanner.py`,
  the indicator computation in `src/data_fetcher.py` /
  `src/shared/data_fetcher.py`, and the configuration constants in
  `src/config.py` and `src/config/australia_config.py`.

  Python floats are modelled as rationals (ℚ); pandas NaN values are
  modelled as `Option` (`none` = NaN / missing); a raised exception is
  modelled as `Except.error`.  Scores, prices and indicator values are ℚ.
-/
import Mathlib

namespace StockScanner

instance {ε α : Type} [DecidableEq ε] [DecidableEq α] : DecidableEq (Except ε α) :=
  fun a b =>
    match a, b with
    | .ok x, .ok y =>
      if h : x = y then .isTrue (by rw [h]) else .isFalse (by simp [h])
    | .error x, .error y =>
      if h : x = y then .isTrue (by rw [h]) else .isFalse (by simp [h])
    | .ok _, .error _ => .isFalse (by simp)
    | .error _, .ok _ => .isFalse (by simp)

/-! ## Configuration constants (src/config.py, src/config/australia_config.py) -/

/-- `BTSTCriteria` dataclass from `src/config.py`. -/
structure BTSTCriteria where
  minGainPercent : ℚ := 2
  maxGainPercent : ℚ := 35/10
  minVolumeMultiplier : ℚ := 15/10
  maxResults : ℕ := 10

/-- `SwingCriteria` dataclass from `src/config.py` (India). -/
structure SwingCriteria where
  minMarketCap : ℚ := 5000
  maxDebtToEquity : ℚ := 5/10
  minRoe : ℚ := 15
  rsiMin : ℚ := 40
  rsiMax : ℚ := 60
  minVolumeMultiplier : ℚ := 12/10
  maxResults : ℕ := 15

/-- `AustraliaSwingCriteria` dataclass from `src/config/australia_config.py`. -/
structure AustraliaSwingCriteria where
  minMarketCap : ℚ := 50000
  maxDebtToEquity : ℚ := 1
  minRoe : ℚ := 10
  rsiMin : ℚ := 35
  rsiMax : ℚ := 65
  min52wHighProximity : ℚ := 85
  max52wHighProximity : ℚ := 98
  minVolumeRatio : ℚ := 12/10
  maxResults : ℕ := 15

/-- Default India BTST criteria instance (`Config().BTST`). -/
def btstCriteria : BTSTCriteria := {}

/-- Default India swing criteria instance (`Config().SWING`). -/
def swingCriteria : SwingCriteria := {}

/-- Default Australia swing criteria instance (`AustraliaConfig().SWING`). -/
def australiaSwingCriteria : AustraliaSwingCriteria := {}

/-- `BTST_EXCLUDED_SECTORS` from `src/config.py`. -/
def BTST_EXCLUDED_SECTORS : List String := ["IT", "PHARMA"]

/-- `SWING_PREFERRED_SECTORS` from `src/config.py`. -/
def SWING_PREFERRED_SECTORS : List String :=
  ["DEFENCE", "CAPITAL GOODS", "INFRASTRUCTURE", "PSU BANKS", "RENEWABLE ENERGY"]

/-- `sector_weights` dict from `AustraliaSwingCriteria` in
`src/config/australia_config.py`; lookup default is 1.0. -/
def sector_weights : List (String × ℚ) :=
  [("Materials", 12/10), ("Energy", 115/100), ("Financials", 1),
   ("Consumer Discretionary", 1), ("Industrials", 1),
   ("Information Technology", 8/10), ("Health Care", 9/10),
   ("Communication Services", 85/100), ("Consumer Staples", 95/100),
   ("Utilities", 9/10), ("Real Estate", 85/100)]

/-- Python's `round(x, 2)` on a rational (the exact rounding mode for
half-way cases is immaterial to every claim below). -/
def round2 (x : ℚ) : ℚ := (round (x * 100) : ℤ) / 100

/-- Python's `round(x, 1)`. -/
def round1 (x : ℚ) : ℚ := (round (x * 10) : ℤ) / 10

/-! ## BTST scanner data model (src/btst_scanner.py) -/

/-- One row of the BTST historical DataFrame: the columns accessed by
`check_btst_criteria` via direct indexing. -/
structure BtstRow where
  close : ℚ
  ema20 : ℚ
  volumeRatio : ℚ

/-- A pandas DataFrame as seen by the BTST scanner: its rows plus
column-presence flags for the two columns tested with `in df.columns`.
An empty `rows` list models an empty frame. -/
structure BtstDF where
  rows : List BtstRow
  hasVolumeRatio : Bool
  hasEMA20 : Bool

/-- Current-session snapshot dict produced by the data fetcher. -/
structure CurrentData where
  symbol : String
  currentPrice : ℚ
  dayChangePct : ℚ
  highProximityPct : ℚ

/-- Fundamentals dict as used by the BTST scanner: only
`fundamentals.get('sector', 'Unknown')` is read; `none` models a dict
without the key. -/
structure BtstFund where
  sector : Option String

/-- The `reasons` entries appended by `check_btst_criteria`, one
constructor per `reasons.append(...)` site, payload = the interpolated
number/string. -/
inductive BtstReason where
  | gainIdeal (d : ℚ)
  | gainHigh (d : ℚ)
  | gainBelow (d : ℚ)
  | volGood (v : ℚ)
  | volLow (v : ℚ)
  | nearHigh (h : ℚ)
  | nearHigh80 (h : ℚ)
  | notNearHigh (h : ℚ)
  | aboveEma20
  | belowEma20
  | sectorOk (s : String)
  | sectorExcluded (s : String)
deriving DecidableEq

/-- Rendering of a reason to the literal f-string text (the numeric
interpolation is `toString` rather than `:.1f`; only the fixed text
matters to the claims). -/
def BtstReason.render : BtstReason → String
  | .gainIdeal d => "✓ Gain " ++ toString d ++ "% (ideal 2-3%)"
  | .gainHigh d => "⚠ Gain " ++ toString d ++ "% (>3%, may be overbought)"
  | .gainBelow d => "✗ Gain " ++ toString d ++ "% (below 2%)"
  | .volGood v => "✓ Volume " ++ toString v ++ "x average"
  | .volLow v => "⚠ Volume " ++ toString v ++ "x (below 1.5x)"
  | .nearHigh h => "✓ Closing near high (" ++ toString h ++ "%)"
  | .nearHigh80 h => "⚠ Near high (" ++ toString h ++ "%)"
  | .notNearHigh h => "⚠ Not near high (" ++ toString h ++ "%)"
  | .aboveEma20 => "✓ Above 20 EMA (uptrend)"
  | .belowEma20 => "⚠ Below 20 EMA"
  | .sectorOk s => "✓ Sector: " ++ s
  | .sectorExcluded s => "⚠ Excluded sector: " ++ s

/-- `"; ".join(reasons)`. -/
def joinReasons (rs : List BtstReason) : String :=
  String.intercalate "; " (rs.map BtstReason.render)

/-- Step 4 of `check_btst_criteria`: trend confirmation (above 20 EMA,
15 points).  Note the missing emptiness guard: `iloc[-1]` raises on an
empty frame that has the EMA_20 column, modelled by `.error`. -/
def btstTrendStep (historical : Option BtstDF) : Except String (ℚ × List BtstReason) :=
  match historical with
  | some df =>
    if df.hasEMA20 then
      match df.rows.getLast? with
      | some latest =>
        if latest.ema20 < latest.close then .ok (15, [.aboveEma20])
        else .ok (5, [.belowEma20])
      | none => .error "single positional indexer is out-of-bounds"
    else .ok (0, [])
  | none => .ok (0, [])

/-- Steps 2-5 of `BTSTScanner.check_btst_criteria` (everything after the
gain check), taking the score and reasons accumulated so far.  The
`Except` return models the uncaught `IndexError` that `iloc[-1]` raises
on an empty frame in the trend-confirmation step. -/
def checkBtstRest (c : BTSTCriteria) (current : CurrentData)
    (historical : Option BtstDF) (fund : BtstFund)
    (score0 : ℚ) (reasons0 : List BtstReason) :
    Except String (Bool × ℚ × List BtstReason) :=
  -- 2. Volume (1.5x average) - 25 points
  let volStep : ℚ × List BtstReason :=
    match historical with
    | some df =>
      match df.rows.getLast? with
      | some latest =>
        if df.hasVolumeRatio then
          if c.minVolumeMultiplier ≤ latest.volumeRatio then
            (25, [.volGood latest.volumeRatio])
          else
            (10, [.volLow latest.volumeRatio])
        else (0, [])
      | none => (0, [])
    | none => (0, [])
  -- 3. Closing near day high - 20 points
  let highProx := current.highProximityPct
  let proxStep : ℚ × List BtstReason :=
    if 90 ≤ highProx then (20, [.nearHigh highProx])
    else if 80 ≤ highProx then (15, [.nearHigh80 highProx])
    else (5, [.notNearHigh highProx])
  match btstTrendStep historical with
  | .error e => .error e
  | .ok (trendScore, trendReasons) =>
    -- 5. Sector check - 10 points
    let sector := fund.sector.getD "Unknown"
    let sectorStep : ℚ × List BtstReason :=
      if sector ∈ BTST_EXCLUDED_SECTORS then (0, [.sectorExcluded sector])
      else (10, [.sectorOk sector])
    let score := score0 + volStep.1 + proxStep.1 + trendScore + sectorStep.1
    let reasons := reasons0 ++ volStep.2 ++ proxStep.2 ++ trendReasons ++ sectorStep.2
    -- Minimum score threshold: 60/100
    .ok (decide (60 ≤ score), score, reasons)

/-- `BTSTScanner.check_btst_criteria` (src/btst_scanner.py lines 38-112).
Returns `(passes, score, reasons)`; `.error` models a raised exception. -/
def check_btst_criteria (c : BTSTCriteria) (current : CurrentData)
    (historical : Option BtstDF) (fund : BtstFund) :
    Except String (Bool × ℚ × List BtstReason) :=
  -- 1. Price gain (2-3% at 3 PM) - 30 points
  let dayChange := current.dayChangePct
  if c.minGainPercent ≤ dayChange ∧ dayChange ≤ c.maxGainPercent then
    checkBtstRest c current historical fund 30 [.gainIdeal dayChange]
  else if c.maxGainPercent < dayChange then
    checkBtstRest c current historical fund 15 [.gainHigh dayChange]
  else
    .ok (false, 0, [.gainBelow dayChange])

/-! ## Swing scanner data model (src/swing_scanner.py,
src/markets/australia/swing_scanner.py) -/

/-- One row of the swing historical DataFrame.  `Close` is always
indexed directly; the other columns are read with `row.get(col, default)`
so they are modelled as `Option` (`none` = column absent). -/
structure SwingRow where
  close : ℚ
  ema20 : Option ℚ
  ema50 : Option ℚ
  sma200 : Option ℚ
  rsi : Option ℚ
  macd : Option ℚ
  macdSignal : Option ℚ
  macdHist : Option ℚ
  volumeRatio : Option ℚ
  week52Prox : Option ℚ
deriving DecidableEq

/-- Fundamentals dict as read by both swing scanners; each field read
with `.get(key, default)`, so `none` models a dict without the key. -/
structure SwingFund where
  marketCap : Option ℚ
  debtToEquity : Option ℚ
  roe : Option ℚ
  sector : Option String
deriving DecidableEq

/-- The `reasons` entries of the swing checkers, one constructor per
`reasons.append(...)` site (shared by the India and Australia variants;
the claims below never inspect these). -/
inductive SwingReason where
  | insufficientData
  | mcapTooSmall (v : ℚ)
  | highDebt (v : ℚ)
  | lowRoe (v : ℚ)
  | fundamentalsOk (mc de roe : ℚ)
  | aboveAllMAs
  | aboveTwoEmas
  | noClearUptrend
  | rsiIdeal (v : ℚ)
  | rsiPullback (v : ℚ)
  | rsiOverbought (v : ℚ)
  | rsiOther (v : ℚ)
  | near52wHigh (v : ℚ)
  | at52wHigh (v : ℚ)
  | low52wProx (v : ℚ)
  | macdBullish
  | macdNeutral
  | volConfirmed (v : ℚ)
  | volWeak (v : ℚ)
  | preferredSector (s : String)
  | plainSector (s : String)
  | weightedSector (s : String) (w : ℚ)
deriving DecidableEq

/-- Body of `SwingScanner.check_swing_criteria` (src/swing_scanner.py
lines 56-166) once `latest = df.iloc[-1]` and `prev = df.iloc[-2]` are in
hand.  Returns `(passes, score, entry_type, reasons)`.  The mutable
Python locals `score` and `entry_type` are threaded through `let`s. -/
def indiaSwingEval (c : SwingCriteria) (latest prev : SwingRow)
    (fund : SwingFund) : Bool × ℚ × String × List SwingReason :=
  -- 1. Fundamental filters (must pass all)
  let market_cap := fund.marketCap.getD 0
  let debt_to_equity := fund.debtToEquity.getD 999
  let roe := fund.roe.getD 0
  let sector := fund.sector.getD "Unknown"
  if market_cap < c.minMarketCap then (false, 0, "", [.mcapTooSmall market_cap])
  else if c.maxDebtToEquity < debt_to_equity then (false, 0, "", [.highDebt debt_to_equity])
  else if roe < c.minRoe then (false, 0, "", [.lowRoe roe])
  else
    let s1 : ℚ := 20
    -- 2. Trend alignment (above all MAs) - 20 points
    let ema_20 := latest.ema20.getD 0
    let ema_50 := latest.ema50.getD 0
    let sma_200 := latest.sma200.getD 0
    let close := latest.close
    let above_all_ma := ema_20 < close ∧ ema_50 < ema_20 ∧ sma_200 < ema_50
    let s2 : ℚ := if above_all_ma then 20
      else if ema_20 < close ∧ ema_50 < close then 15 else 5
    let r2 : SwingReason := if above_all_ma then .aboveAllMAs
      else if ema_20 < close ∧ ema_50 < close then .aboveTwoEmas else .noClearUptrend
    -- 3. RSI check (40-60 ideal) - 20 points
    let rsi := latest.rsi.getD 50
    let s3 : ℚ := if c.rsiMin ≤ rsi ∧ rsi ≤ c.rsiMax then 20
      else if 30 < rsi ∧ rsi < 40 then 15
      else if 60 < rsi then 5 else 0
    let e3 : String := if c.rsiMin ≤ rsi ∧ rsi ≤ c.rsiMax then "none"
      else if 30 < rsi ∧ rsi < 40 then "pullback" else "none"
    let r3 : List SwingReason := if c.rsiMin ≤ rsi ∧ rsi ≤ c.rsiMax then [.rsiIdeal rsi]
      else if 30 < rsi ∧ rsi < 40 then [.rsiPullback rsi]
      else if 60 < rsi then [.rsiOverbought rsi] else [.rsiOther rsi]
    -- 4. MACD signals - 15 points
    let macd := latest.macd.getD 0
    let macd_signal := latest.macdSignal.getD 0
    let macd_hist := latest.macdHist.getD 0
    let prev_macd_hist := prev.macdHist.getD 0
    let s4 : ℚ := if macd_signal < macd ∧ 0 < macd_hist then 15
      else if macd_signal < macd then 10 else 0
    let e4 : String := if macd_signal < macd ∧ 0 < macd_hist then
        (if prev_macd_hist ≤ 0 then "macd_cross" else e3)
      else e3
    let r4 : List SwingReason := if macd_signal < macd ∧ 0 < macd_hist then [.macdBullish]
      else if macd_signal < macd then [.macdNeutral] else []
    -- 5. Volume confirmation - 15 points
    let volume_ratio := latest.volumeRatio.getD 1
    let s5 : ℚ := if c.minVolumeMultiplier ≤ volume_ratio then 15 else 5
    let r5 : SwingReason := if c.minVolumeMultiplier ≤ volume_ratio then
        .volConfirmed volume_ratio else .volWeak volume_ratio
    -- 6. Sector preference - 10 points
    let s6 : ℚ := if sector ∈ SWING_PREFERRED_SECTORS then 10 else 5
    let r6 : SwingReason := if sector ∈ SWING_PREFERRED_SECTORS then
        .preferredSector sector else .plainSector sector
    -- Detect entry type if not already set
    let entry_type : String :=
      if e4 = "none" then
        if latest.ema20.getD 0 * (102/100) < close ∧ 15/10 < volume_ratio then "breakout"
        else if ema_50 < ema_20 ∧ prev.ema20.getD 0 ≤ prev.ema50.getD 0 then "ma_cross"
        else "trend_follow"
      else e4
    let score := s1 + s2 + s3 + s4 + s5 + s6
    -- Minimum score threshold: 65/100
    (decide (65 ≤ score), score, entry_type,
      [.fundamentalsOk market_cap debt_to_equity roe, r2] ++ r3 ++ r4 ++ [r5, r6])

/-- `SwingScanner.check_swing_criteria` (src/swing_scanner.py lines
45-166): the insufficient-data guard plus `indiaSwingEval` on the last
two rows. -/
def check_swing_criteria (c : SwingCriteria) (historical : Option (List SwingRow))
    (fund : SwingFund) : Bool × ℚ × String × List SwingReason :=
  match historical with
  | none => (false, 0, "", [.insufficientData])
  | some rows =>
    if rows.length < 50 then (false, 0, "", [.insufficientData])
    else
      match rows.reverse with
      | latest :: prev :: _ => indiaSwingEval c latest prev fund
      | _ => (false, 0, "", [.insufficientData])

/-- `SwingScanner.calculate_targets` (src/swing_scanner.py lines
168-185): target/stop-loss multipliers by entry type; note the silent
`else` catch-all. -/
def calculate_targets (current_price : ℚ) (entry_type : String) : ℚ × ℚ :=
  if entry_type = "breakout" then
    (round2 (current_price * (112/100)), round2 (current_price * (95/100)))
  else if entry_type = "pullback" then
    (round2 (current_price * (110/100)), round2 (current_price * (93/100)))
  else  -- trend_follow, macd_cross, ma_cross (and anything else)
    (round2 (current_price * (112/100)), round2 (current_price * (94/100)))

/-- Body of `AustraliaSwingScanner.check_swing_criteria`
(src/markets/australia/swing_scanner.py lines 58-183) given `latest` and
`prev`.  Returns `(passes, weighted_score, entry_type, reasons,
sector_weight)`. -/
def australiaSwingEval (c : AustraliaSwingCriteria) (latest prev : SwingRow)
    (fund : SwingFund) : Bool × ℚ × String × List SwingReason × ℚ :=
  -- 1. Fundamental filters (must pass all)
  let market_cap := fund.marketCap.getD 0
  let debt_to_equity := fund.debtToEquity.getD 999
  let roe := fund.roe.getD 0
  let sector := fund.sector.getD "Unknown"
  if market_cap < c.minMarketCap then (false, 0, "", [.mcapTooSmall market_cap], 1)
  else if c.maxDebtToEquity < debt_to_equity then (false, 0, "", [.highDebt debt_to_equity], 1)
  else if roe < c.minRoe then (false, 0, "", [.lowRoe roe], 1)
  else
    let s1 : ℚ := 15
    -- 2. Trend alignment (above all MAs) - 20 points
    let ema_20 := latest.ema20.getD 0
    let ema_50 := latest.ema50.getD 0
    let sma_200 := latest.sma200.getD 0
    let close := latest.close
    let above_all_ma := ema_20 < close ∧ ema_50 < ema_20 ∧ sma_200 < ema_50
    let s2 : ℚ := if above_all_ma then 20
      else if ema_20 < close ∧ ema_50 < close then 15 else 5
    let r2 : SwingReason := if above_all_ma then .aboveAllMAs
      else if ema_20 < close ∧ ema_50 < close then .aboveTwoEmas else .noClearUptrend
    -- 3. RSI check (35-65 for Australia) - 20 points
    let rsi := latest.rsi.getD 50
    let s3 : ℚ := if c.rsiMin ≤ rsi ∧ rsi ≤ c.rsiMax then 20
      else if 30 < rsi ∧ rsi < 35 then 15
      else if 65 < rsi then 5 else 0
    let e3 : String := if c.rsiMin ≤ rsi ∧ rsi ≤ c.rsiMax then "none"
      else if 30 < rsi ∧ rsi < 35 then "pullback" else "none"
    let r3 : List SwingReason := if c.rsiMin ≤ rsi ∧ rsi ≤ c.rsiMax then [.rsiIdeal rsi]
      else if 30 < rsi ∧ rsi < 35 then [.rsiPullback rsi]
      else if 65 < rsi then [.rsiOverbought rsi] else [.rsiOther rsi]
    -- 4. 52-week high proximity - 15 points (Australian specific)
    let week_52_high_prox := latest.week52Prox.getD 0
    let s4 : ℚ :=
      if c.min52wHighProximity ≤ week_52_high_prox ∧
          week_52_high_prox ≤ c.max52wHighProximity then 15
      else if c.max52wHighProximity < week_52_high_prox then 8 else 5
    let r4 : SwingReason :=
      if c.min52wHighProximity ≤ week_52_high_prox ∧
          week_52_high_prox ≤ c.max52wHighProximity then .near52wHigh week_52_high_prox
      else if c.max52wHighProximity < week_52_high_prox then .at52wHigh week_52_high_prox
      else .low52wProx week_52_high_prox
    -- 5. MACD signals - 15 points
    let macd := latest.macd.getD 0
    let macd_signal_val := latest.macdSignal.getD 0
    let macd_hist := latest.macdHist.getD 0
    let prev_macd_hist := prev.macdHist.getD 0
    let s5 : ℚ := if macd_signal_val < macd ∧ 0 < macd_hist then 15
      else if macd_signal_val < macd then 10 else 0
    let e5 : String := if macd_signal_val < macd ∧ 0 < macd_hist then
        (if prev_macd_hist ≤ 0 then "macd_cross" else e3)
      else e3
    let r5 : List SwingReason := if macd_signal_val < macd ∧ 0 < macd_hist then [.macdBullish]
      else if macd_signal_val < macd then [.macdNeutral] else []
    -- 6. Volume confirmation - 10 points
    let volume_ratio := latest.volumeRatio.getD 1
    let s6 : ℚ := if c.minVolumeRatio ≤ volume_ratio then 10 else 5
    let r6 : SwingReason := if c.minVolumeRatio ≤ volume_ratio then
        .volConfirmed volume_ratio else .volWeak volume_ratio
    -- 7. Sector weight application
    let sector_weight := ((sector_weights.lookup sector).getD 1)
    let r7 : SwingReason := if 1 < sector_weight then
        .weightedSector sector sector_weight else .plainSector sector
    -- Detect entry type if not already set
    let entry_type : String :=
      if e5 = "none" then
        if latest.ema20.getD 0 * (102/100) < close ∧ 15/10 < volume_ratio then "breakout"
        else if ema_50 < ema_20 ∧ prev.ema20.getD 0 ≤ prev.ema50.getD 0 then "ma_cross"
        else "trend_follow"
      else e5
    let score := s1 + s2 + s3 + s4 + s5 + s6
    -- Apply sector weight to score
    let weighted_score := score * sector_weight
    -- Minimum score threshold: 60/100 (before sector weight)
    (decide (60 ≤ score), weighted_score, entry_type,
      [.fundamentalsOk market_cap debt_to_equity roe, r2] ++ r3 ++ [r4] ++ r5 ++ [r6, r7],
      sector_weight)

/-- `AustraliaSwingScanner.check_swing_criteria`
(src/markets/australia/swing_scanner.py lines 47-183). -/
def australia_check_swing_criteria (c : AustraliaSwingCriteria)
    (historical : Option (List SwingRow)) (fund : SwingFund) :
    Bool × ℚ × String × List SwingReason × ℚ :=
  match historical with
  | none => (false, 0, "", [.insufficientData], 1)
  | some rows =>
    if rows.length < 50 then (false, 0, "", [.insufficientData], 1)
    else
      match rows.reverse with
      | latest :: prev :: _ => australiaSwingEval c latest prev fund
      | _ => (false, 0, "", [.insufficientData], 1)

/-- `AustraliaSwingScanner.calculate_targets`
(src/markets/australia/swing_scanner.py lines 185-202). -/
def australia_calculate_targets (current_price : ℚ) (entry_type : String) : ℚ × ℚ :=
  if entry_type = "breakout" then
    (round2 (current_price * (115/100)), round2 (current_price * (95/100)))
  else if entry_type = "pullback" then
    (round2 (current_price * (112/100)), round2 (current_price * (93/100)))
  else  -- trend_follow, macd_cross, ma_cross (and anything else)
    (round2 (current_price * (115/100)), round2 (current_price * (94/100)))

/-! ## Scan pipelines -/

/-- Stable descending sort by a score projection, as performed by
`candidates.sort(key=lambda x: x.score, reverse=True)` (Python's sort is
stable; `List.insertionSort` with this relation is the stable descending
sort). -/
def sortByScoreDesc {α : Type} (score : α → ℚ) (l : List α) : List α :=
  l.insertionSort (fun a b => score b ≤ score a)

/-- `BTSTCandidate` dataclass (src/btst_scanner.py lines 17-27). -/
structure BTSTCandidate where
  symbol : String
  currentPrice : ℚ
  dayChangePct : ℚ
  volumeRatio : ℚ
  highProximityPct : ℚ
  sector : String
  score : ℚ
  reasons : List BtstReason
deriving DecidableEq

/-- Per-symbol data materialised by the batch fetches of
`scan_for_btst`: entries of the three dicts for one symbol.  `historical
= some (.error e)` models `calculate_technical_indicators` (or any later
per-symbol computation) raising for that symbol. -/
structure BtstInput where
  symbol : String
  currentData : Option CurrentData
  historical : Option (Except String BtstDF)
  fundamentals : Option BtstFund

/-- Step 2 of `scan_for_btst` (lines 139-142): keep symbols whose
snapshot day gain meets the minimum. -/
def btstPrefilter (c : BTSTCriteria) (inp : BtstInput) : Bool :=
  match inp.currentData with
  | some d => decide (c.minGainPercent ≤ d.dayChangePct)
  | none => false

/-- Loop body of `scan_for_btst` (lines 162-198) for one symbol: `none`
models `continue` (missing data, caught exception, or criteria not
passed). -/
def evalBtstSymbol (c : BTSTCriteria) (inp : BtstInput) : Option BTSTCandidate :=
  match inp.currentData, inp.historical with
  | some current, some histRes =>
    let fund := inp.fundamentals.getD ⟨some "Unknown"⟩
    match histRes with
    | .error _ => none
    | .ok df =>
      match check_btst_criteria c current (some df) fund with
      | .error _ => none
      | .ok r =>
        if r.1 then
          let volume_ratio :=
            match df.rows.getLast? with
            | some latest => if df.hasVolumeRatio then latest.volumeRatio else 1
            | none => 1
          some { symbol := current.symbol, currentPrice := current.currentPrice,
                 dayChangePct := current.dayChangePct, volumeRatio := volume_ratio,
                 highProximityPct := current.highProximityPct,
                 sector := fund.sector.getD "Unknown",
                 score := r.2.1, reasons := r.2.2 }
        else none
  | _, _ => none

/-- Candidate list accumulated by the `scan_for_btst` loop. -/
def btstCandidates (c : BTSTCriteria) (inputs : List BtstInput) : List BTSTCandidate :=
  (inputs.filter (btstPrefilter c)).filterMap (evalBtstSymbol c)

/-- `BTSTScanner.scan_for_btst` (src/btst_scanner.py lines 114-204):
prefilter, evaluate, sort by score descending, truncate. -/
def scan_for_btst (c : BTSTCriteria) (maxResults : ℕ) (inputs : List BtstInput) :
    List BTSTCandidate :=
  (sortByScoreDesc (fun x => x.score) (btstCandidates c inputs)).take maxResults

/-- `SwingCandidate` dataclass (src/swing_scanner.py lines 17-34). -/
structure SwingCandidate where
  symbol : String
  currentPrice : ℚ
  marketCap : ℚ
  sector : String
  rsi : ℚ
  macdSignal : String
  emaAlignment : Bool
  volumeRatio : ℚ
  debtToEquity : ℚ
  roe : ℚ
  score : ℚ
  entryType : String
  target : ℚ
  stopLoss : ℚ
  reasons : List SwingReason
deriving DecidableEq

/-- Per-symbol data materialised by the batch fetches of
`scan_for_swing`.  `historical = some (.error e)` models
`calculate_technical_indicators` raising for that symbol. -/
structure SwingInput where
  symbol : String
  fundamentals : Option SwingFund
  historical : Option (Except String (List SwingRow))

/-- Step 2 of `scan_for_swing` (lines 212-216): fundamental prefilter. -/
def swingPrefilter (c : SwingCriteria) (inp : SwingInput) : Bool :=
  match inp.fundamentals with
  | some f => decide (c.minMarketCap ≤ f.marketCap.getD 0) &&
      decide (f.debtToEquity.getD 999 ≤ c.maxDebtToEquity)
  | none => false

/-- Loop body of `scan_for_swing` (lines 232-276) for one symbol.  The
`match` on the four fundamentals fields models the direct dict accesses
`fundamentals['market_cap']` etc. in candidate construction, whose
`KeyError` would be caught by the per-symbol handler. -/
def evalSwingSymbol (c : SwingCriteria) (inp : SwingInput) : Option SwingCandidate :=
  match inp.fundamentals, inp.historical with
  | some fund, some histRes =>
    match histRes with
    | .error _ => none
    | .ok rows =>
      let r := check_swing_criteria c (some rows) fund
      if r.1 then
        match rows.getLast? with
        | some latest =>
          let current_price := latest.close
          let ts := calculate_targets current_price r.2.2.1
          match fund.marketCap, fund.sector, fund.debtToEquity, fund.roe with
          | some mc, some sec, some dte, some roeVal =>
            some { symbol := inp.symbol.replace ".NS" "",
                   currentPrice := round2 current_price,
                   marketCap := mc, sector := sec,
                   rsi := round1 (latest.rsi.getD 0),
                   macdSignal := if latest.macdSignal.getD 0 < latest.macd.getD 0
                     then "bullish" else "bearish",
                   emaAlignment := decide (latest.ema20.getD 0 < current_price ∧
                     latest.ema50.getD 0 < latest.ema20.getD 0),
                   volumeRatio := round1 (latest.volumeRatio.getD 1),
                   debtToEquity := dte, roe := roeVal,
                   score := r.2.1, entryType := r.2.2.1,
                   target := ts.1, stopLoss := ts.2, reasons := r.2.2.2 }
          | _, _, _, _ => none
        | none => none
      else none
  | _, _ => none

/-- Candidate list accumulated by the `scan_for_swing` loop. -/
def swingCandidates (c : SwingCriteria) (inputs : List SwingInput) : List SwingCandidate :=
  (inputs.filter (swingPrefilter c)).filterMap (evalSwingSymbol c)

/-- `SwingScanner.scan_for_swing` (src/swing_scanner.py lines 187-281). -/
def scan_for_swing (c : SwingCriteria) (maxResults : ℕ) (inputs : List SwingInput) :
    List SwingCandidate :=
  (sortByScoreDesc (fun x => x.score) (swingCandidates c inputs)).take maxResults

/-- `AustraliaSwingCandidate` dataclass
(src/markets/australia/swing_scanner.py lines 17-36). -/
structure AustraliaSwingCandidate where
  symbol : String
  currentPrice : ℚ
  marketCap : ℚ
  sector : String
  rsi : ℚ
  macdSignal : String
  emaAlignment : Bool
  volumeRatio : ℚ
  debtToEquity : ℚ
  roe : ℚ
  week52HighProximity : ℚ
  score : ℚ
  sectorWeight : ℚ
  entryType : String
  target : ℚ
  stopLoss : ℚ
  reasons : List SwingReason
deriving DecidableEq, Inhabited

/-- Step 2 of the Australian `scan_for_swing` (lines 228-233). -/
def australiaPrefilter (c : AustraliaSwingCriteria) (inp : SwingInput) : Bool :=
  match inp.fundamentals with
  | some f => decide (c.minMarketCap ≤ f.marketCap.getD 0) &&
      decide (f.debtToEquity.getD 999 ≤ c.maxDebtToEquity)
  | none => false

/-- Loop body of the Australian `scan_for_swing` (lines 249-295). -/
def evalAustraliaSymbol (c : AustraliaSwingCriteria) (inp : SwingInput) :
    Option AustraliaSwingCandidate :=
  match inp.fundamentals, inp.historical with
  | some fund, some histRes =>
    match histRes with
    | .error _ => none
    | .ok rows =>
      let r := australia_check_swing_criteria c (some rows) fund
      if r.1 then
        match rows.getLast? with
        | some latest =>
          let current_price := latest.close
          let ts := australia_calculate_targets current_price r.2.2.1
          match fund.marketCap, fund.sector, fund.debtToEquity, fund.roe with
          | some mc, some sec, some dte, some roeVal =>
            some { symbol := inp.symbol.replace ".AX" "",
                   currentPrice := round2 current_price,
                   marketCap := mc, sector := sec,
                   rsi := round1 (latest.rsi.getD 0),
                   macdSignal := if latest.macdSignal.getD 0 < latest.macd.getD 0
                     then "bullish" else "bearish",
                   emaAlignment := decide (latest.ema20.getD 0 < current_price ∧
                     latest.ema50.getD 0 < latest.ema20.getD 0),
                   volumeRatio := round1 (latest.volumeRatio.getD 1),
                   debtToEquity := dte, roe := roeVal,
                   week52HighProximity := round1 (latest.week52Prox.getD 0),
                   score := r.2.1, sectorWeight := r.2.2.2.2,
                   entryType := r.2.2.1,
                   target := ts.1, stopLoss := ts.2, reasons := r.2.2.2.1 }
          | _, _, _, _ => none
        | none => none
      else none
  | _, _ => none

/-- Candidate list accumulated by the Australian scan loop. -/
def australiaCandidates (c : AustraliaSwingCriteria) (inputs : List SwingInput) :
    List AustraliaSwingCandidate :=
  (inputs.filter (australiaPrefilter c)).filterMap (evalAustraliaSymbol c)

/-- `AustraliaSwingScanner.scan_for_swing`
(src/markets/australia/swing_scanner.py lines 204-300). -/
def australia_scan_for_swing (c : AustraliaSwingCriteria) (maxResults : ℕ)
    (inputs : List SwingInput) : List AustraliaSwingCandidate :=
  (sortByScoreDesc (fun x => x.score) (australiaCandidates c inputs)).take maxResults

/-! ## Indicator engine: momentum oscillator (RSI)
(src/data_fetcher.py lines 179-184, src/shared/data_fetcher.py lines
224-229).  pandas NaN is modelled as `none`; the float special values
produced by division (`x/0 = inf` for `x > 0`, `0/0 = NaN`) are encoded
explicitly in `rsiFrom`. -/

/-- `df['Close'].diff()`: NaN (`none`) at position 0, else the
bar-over-bar close delta. -/
def diffList (closes : List ℚ) : List (Option ℚ) :=
  match closes with
  | [] => []
  | _ :: _ => none :: List.zipWith (fun a b => some (b - a)) closes closes.tail

/-- `delta.where(delta > 0, 0)`: the NaN head compares false and becomes
0 as well. -/
def gainList (closes : List ℚ) : List ℚ :=
  (diffList closes).map (fun d =>
    match d with
    | some x => if 0 < x then x else 0
    | none => 0)

/-- `(-delta.where(delta < 0, 0))`. -/
def lossList (closes : List ℚ) : List ℚ :=
  (diffList closes).map (fun d =>
    match d with
    | some x => if x < 0 then -x else 0
    | none => 0)

/-- `series.rolling(window=w).mean()`: NaN before `w` observations,
else the mean of the trailing inclusive window of width `w`. -/
def rollingMean (w : ℕ) (xs : List ℚ) : List (Option ℚ) :=
  (List.range xs.length).map (fun i =>
    if w ≤ i + 1 then some (((xs.take (i + 1)).drop (i + 1 - w)).sum / w) else none)

/-- `rs = gain / loss; rsi = 100 - 100 / (1 + rs)` at one position, with
IEEE float semantics made explicit: `loss = 0, gain > 0` gives
`rs = inf` hence rsi `= 100`; `loss = 0, gain = 0` gives `rs = NaN`
which propagates. -/
def rsiFrom (g l : Option ℚ) : Option ℚ :=
  match g, l with
  | some g, some l =>
    if l = 0 then
      if g = 0 then none
      else some 100
    else some (100 - 100 / (1 + g / l))
  | _, _ => none

/-- The `df['RSI']` column: `rsiFrom` applied pointwise to the rolling
means of gains and losses. -/
def RSI (closes : List ℚ) (period : ℕ) : List (Option ℚ) :=
  List.zipWith rsiFrom (rollingMean period (gainList closes))
    (rollingMean period (lossList closes))

example :
    check_btst_criteria btstCriteria
      ⟨"X", 100, 25/10, 95⟩
      (some ⟨[⟨100, 99, 18/10⟩], true, true⟩)
      ⟨some "Auto"⟩ = .ok (true, 100,
        [.gainIdeal (25/10), .volGood (18/10), .nearHigh 95, .aboveEma20,
         .sectorOk "Auto"]) := by
  with_unfolding_all decide

/-! ## Helper lemmas about the stable descending sort -/

theorem sortByScoreDesc_pairwise {α : Type} (score : α → ℚ) (l : List α) :
    (sortByScoreDesc score l).Pairwise (fun a b => score b ≤ score a) := by
  haveI : IsTotal α (fun a b => score b ≤ score a) :=
    ⟨fun a b => le_total (score b) (score a)⟩
  haveI : IsTrans α (fun a b => score b ≤ score a) :=
    ⟨fun _ _ _ h1 h2 => le_trans h2 h1⟩
  exact List.sorted_insertionSort _ l

theorem filter_orderedInsert {α : Type} (score : α → ℚ) (s : ℚ) (a : α) (l : List α) :
    (List.orderedInsert (fun x y => score y ≤ score x) a l).filter (fun x => score x == s)
    = if score a = s then a :: l.filter (fun x => score x == s)
      else l.filter (fun x => score x == s) := by
  induction l with
  | nil =>
    by_cases has : score a = s <;>
      simp [List.orderedInsert, List.filter_cons, has]
  | cons b t ih =>
    rw [List.orderedInsert]
    by_cases hab : score b ≤ score a
    · rw [if_pos hab, List.filter_cons, List.filter_cons]
      by_cases has : score a = s <;> by_cases hbs : score b = s <;>
        simp [List.filter_cons, has, hbs]
    · rw [if_neg hab, List.filter_cons, ih]
      push_neg at hab
      by_cases has : score a = s
      · have hbs : ¬ score b = s := by
          intro h; rw [has] at hab; exact absurd h (ne_of_gt hab)
        simp [has, hbs]
      · by_cases hbs : score b = s <;> simp [has, hbs]

theorem filter_sortByScoreDesc {α : Type} (score : α → ℚ) (s : ℚ) (l : List α) :
    (sortByScoreDesc score l).filter (fun x => score x == s)
    = l.filter (fun x => score x == s) := by
  induction l with
  | nil => rfl
  | cons a t ih =>
    show (List.orderedInsert _ a (List.insertionSort _ t)).filter _ = _
    rw [filter_orderedInsert score s a (List.insertionSort _ t)]
    rw [List.filter_cons]
    by_cases has : score a = s
    · simp only [if_pos has, beq_iff_eq, has, if_true]
      exact congrArg _ ih
    · simp only [if_neg has, beq_iff_eq, has, if_false]
      exact ih

/-! ## Entry-type classification helpers -/

/-- The entry-type classification actually implemented by the India
swing checker, written as one priority chain: a fresh MACD bullish
crossover (assigned later in the code) overrides a pullback
classification; the fallback chain runs only when neither fired. -/
def indiaEntrySpec (c : SwingCriteria) (latest prev : SwingRow) : String :=
  let rsi := latest.rsi.getD 50
  if latest.macdSignal.getD 0 < latest.macd.getD 0 ∧ 0 < latest.macdHist.getD 0 ∧
      prev.macdHist.getD 0 ≤ 0 then "macd_cross"
  else if ¬(c.rsiMin ≤ rsi ∧ rsi ≤ c.rsiMax) ∧ 30 < rsi ∧ rsi < 40 then "pullback"
  else if latest.ema20.getD 0 * (102/100) < latest.close ∧
      15/10 < latest.volumeRatio.getD 1 then "breakout"
  else if latest.ema50.getD 0 < latest.ema20.getD 0 ∧
      prev.ema20.getD 0 ≤ prev.ema50.getD 0 then "ma_cross"
  else "trend_follow"

/-- The entry-type classification actually implemented by the Australia
swing checker (pullback band `30 < rsi < 35`). -/
def australiaEntrySpec (c : AustraliaSwingCriteria) (latest prev : SwingRow) : String :=
  let rsi := latest.rsi.getD 50
  if latest.macdSignal.getD 0 < latest.macd.getD 0 ∧ 0 < latest.macdHist.getD 0 ∧
      prev.macdHist.getD 0 ≤ 0 then "macd_cross"
  else if ¬(c.rsiMin ≤ rsi ∧ rsi ≤ c.rsiMax) ∧ 30 < rsi ∧ rsi < 35 then "pullback"
  else if latest.ema20.getD 0 * (102/100) < latest.close ∧
      15/10 < latest.volumeRatio.getD 1 then "breakout"
  else if latest.ema50.getD 0 < latest.ema20.getD 0 ∧
      prev.ema20.getD 0 ≤ prev.ema50.getD 0 then "ma_cross"
  else "trend_follow"

theorem indiaSwingEval_entry (c : SwingCriteria) (latest prev : SwingRow) (fund : SwingFund)
    (h1 : c.minMarketCap ≤ fund.marketCap.getD 0)
    (h2 : fund.debtToEquity.getD 999 ≤ c.maxDebtToEquity)
    (h3 : c.minRoe ≤ fund.roe.getD 0) :
    (indiaSwingEval c latest prev fund).2.2.1 = indiaEntrySpec c latest prev := by
  unfold indiaSwingEval indiaEntrySpec
  rw [if_neg (not_lt.mpr h1), if_neg (not_lt.mpr h2), if_neg (not_lt.mpr h3)]
  dsimp only
  by_cases hI : c.rsiMin ≤ latest.rsi.getD 50 ∧ latest.rsi.getD 50 ≤ c.rsiMax <;>
  by_cases hP : 30 < latest.rsi.getD 50 ∧ latest.rsi.getD 50 < 40 <;>
  by_cases hA : latest.macdSignal.getD 0 < latest.macd.getD 0 ∧ 0 < latest.macdHist.getD 0 <;>
  by_cases hB : prev.macdHist.getD 0 ≤ 0 <;>
    simp [hI, hP, hA, hB]

theorem australiaSwingEval_entry (c : AustraliaSwingCriteria) (latest prev : SwingRow)
    (fund : SwingFund)
    (h1 : c.minMarketCap ≤ fund.marketCap.getD 0)
    (h2 : fund.debtToEquity.getD 999 ≤ c.maxDebtToEquity)
    (h3 : c.minRoe ≤ fund.roe.getD 0) :
    (australiaSwingEval c latest prev fund).2.2.1 = australiaEntrySpec c latest prev := by
  unfold australiaSwingEval australiaEntrySpec
  rw [if_neg (not_lt.mpr h1), if_neg (not_lt.mpr h2), if_neg (not_lt.mpr h3)]
  dsimp only
  by_cases hI : c.rsiMin ≤ latest.rsi.getD 50 ∧ latest.rsi.getD 50 ≤ c.rsiMax <;>
  by_cases hP : 30 < latest.rsi.getD 50 ∧ latest.rsi.getD 50 < 35 <;>
  by_cases hA : latest.macdSignal.getD 0 < latest.macd.getD 0 ∧ 0 < latest.macdHist.getD 0 <;>
  by_cases hB : prev.macdHist.getD 0 ≤ 0 <;>
    simp [hI, hP, hA, hB]

theorem indiaEntrySpec_ne_none (c : SwingCriteria) (latest prev : SwingRow) :
    indiaEntrySpec c latest prev ≠ "none" := by
  unfold indiaEntrySpec
  dsimp only
  split_ifs <;> decide

theorem australiaEntrySpec_ne_none (c : AustraliaSwingCriteria) (latest prev : SwingRow) :
    australiaEntrySpec c latest prev ≠ "none" := by
  unfold australiaEntrySpec
  dsimp only
  split_ifs <;> decide

theorem indiaSwingEval_passes_gates (c : SwingCriteria) (latest prev : SwingRow)
    (fund : SwingFund) (h : (indiaSwingEval c latest prev fund).1 = true) :
    c.minMarketCap ≤ fund.marketCap.getD 0 ∧
    fund.debtToEquity.getD 999 ≤ c.maxDebtToEquity ∧
    c.minRoe ≤ fund.roe.getD 0 := by
  by_cases h1 : fund.marketCap.getD 0 < c.minMarketCap
  · rw [indiaSwingEval, if_pos h1] at h; simp at h
  by_cases h2 : c.maxDebtToEquity < fund.debtToEquity.getD 999
  · rw [indiaSwingEval, if_neg h1, if_pos h2] at h; simp at h
  by_cases h3 : fund.roe.getD 0 < c.minRoe
  · rw [indiaSwingEval, if_neg h1, if_neg h2, if_pos h3] at h; simp at h
  exact ⟨not_lt.mp h1, not_lt.mp h2, not_lt.mp h3⟩

theorem australiaSwingEval_passes_gates (c : AustraliaSwingCriteria) (latest prev : SwingRow)
    (fund : SwingFund) (h : (australiaSwingEval c latest prev fund).1 = true) :
    c.minMarketCap ≤ fund.marketCap.getD 0 ∧
    fund.debtToEquity.getD 999 ≤ c.maxDebtToEquity ∧
    c.minRoe ≤ fund.roe.getD 0 := by
  by_cases h1 : fund.marketCap.getD 0 < c.minMarketCap
  · rw [australiaSwingEval, if_pos h1] at h; simp at h
  by_cases h2 : c.maxDebtToEquity < fund.debtToEquity.getD 999
  · rw [australiaSwingEval, if_neg h1, if_pos h2] at h; simp at h
  by_cases h3 : fund.roe.getD 0 < c.minRoe
  · rw [australiaSwingEval, if_neg h1, if_neg h2, if_pos h3] at h; simp at h
  exact ⟨not_lt.mp h1, not_lt.mp h2, not_lt.mp h3⟩

theorem check_swing_reduces (c : SwingCriteria) (rows : List SwingRow) (fund : SwingFund)
    (latest prev : SwingRow) (rest : List SwingRow)
    (hrev : rows.reverse = latest :: prev :: rest) (hlen : 50 ≤ rows.length) :
    check_swing_criteria c (some rows) fund = indiaSwingEval c latest prev fund := by
  rw [check_swing_criteria, if_neg (not_lt.mpr hlen), hrev]

theorem australia_check_swing_reduces (c : AustraliaSwingCriteria) (rows : List SwingRow)
    (fund : SwingFund) (latest prev : SwingRow) (rest : List SwingRow)
    (hrev : rows.reverse = latest :: prev :: rest) (hlen : 50 ≤ rows.length) :
    australia_check_swing_criteria c (some rows) fund = australiaSwingEval c latest prev fund := by
  rw [australia_check_swing_criteria, if_neg (not_lt.mpr hlen), hrev]

theorem indiaEntrySpec_macd_cross_iff (c : SwingCriteria) (latest prev : SwingRow) :
    indiaEntrySpec c latest prev = "macd_cross" ↔
      (latest.macdSignal.getD 0 < latest.macd.getD 0 ∧ 0 < latest.macdHist.getD 0 ∧
        prev.macdHist.getD 0 ≤ 0) := by
  unfold indiaEntrySpec
  dsimp only
  split_ifs <;> simp_all

theorem australiaEntrySpec_macd_cross_iff (c : AustraliaSwingCriteria) (latest prev : SwingRow) :
    australiaEntrySpec c latest prev = "macd_cross" ↔
      (latest.macdSignal.getD 0 < latest.macd.getD 0 ∧ 0 < latest.macdHist.getD 0 ∧
        prev.macdHist.getD 0 ≤ 0) := by
  unfold australiaEntrySpec
  dsimp only
  split_ifs <;> simp_all

/-! ## Concrete fixtures -/

/-- A padding row with no indicator columns, used to bring concrete
series up to the 50-row minimum; the checkers only read the last two
rows. -/
def fillerRow : SwingRow := ⟨100, none, none, none, none, none, none, none, none, none⟩

def c1Latest : SwingRow :=
  ⟨100, some 90, some 80, some 70, some 35, some 2, some 1, some 1, some 2, some 90⟩

def c1Prev : SwingRow :=
  ⟨99, some 90, some 80, some 70, some 35, some 1, some 1, some (-1), some 2, some 90⟩

def c1Fund : SwingFund := ⟨some 6000, some (4/10), some 20, some "DEFENCE"⟩

def c1Rows : List SwingRow := List.replicate 48 fillerRow ++ [c1Prev, c1Latest]

def c6Latest : SwingRow :=
  ⟨100, some 90, some 80, some 70, some 50, some 0, some 0, some 0, some 1, some 50⟩

def c6Prev : SwingRow :=
  ⟨99, some 90, some 80, some 70, some 50, some 0, some 0, some (-1), some 1, some 50⟩

def c6Fund : SwingFund := ⟨some 6000, some (4/10), some 20, some "DEFENCE"⟩

def c6Rows : List SwingRow := List.replicate 48 fillerRow ++ [c6Prev, c6Latest]

/-! ## Claim C1 -/

/-- C1 counterexample: a passing India-swing evaluation whose RSI (35)
lies in the pullback band while a fresh MACD bullish crossover also
occurs on the same bar (histogram 1 > 0, previous histogram -1 ≤ 0);
the returned entry type is "macd_cross", not "pullback" as the claim
requires. -/
theorem c1_counterexample :
    (check_swing_criteria swingCriteria (some c1Rows) c1Fund).1 = true ∧
    30 < c1Latest.rsi.getD 50 ∧ c1Latest.rsi.getD 50 < 40 ∧
    c1Prev.macdHist.getD 0 ≤ 0 ∧ 0 < c1Latest.macdHist.getD 0 ∧
    c1Latest.macdSignal.getD 0 < c1Latest.macd.getD 0 ∧
    (check_swing_criteria swingCriteria (some c1Rows) c1Fund).2.2.1 ≠ "pullback" ∧
    (check_swing_criteria swingCriteria (some c1Rows) c1Fund).2.2.1 = "macd_cross" := by
  with_unfolding_all decide

/-- C1 (amended): in both swing-style policies, a fresh MACD bullish
crossover on this bar takes priority over the pullback classification
(the code assigns `macd_cross` after, and regardless of, `pullback`);
a momentum-oscillator value in the pullback band yields `pullback` only
when no fresh crossover fires; otherwise the final fallback applies:
close above short trend average by more than 2% with volume ratio above
1.5 gives `breakout`, a short-over-medium average crossover on this bar
gives `ma_cross`, else `trend_follow`; and no passing evaluation ever
returns entry type "none". -/
theorem c1_entry_type_priority :
    (∀ (c : SwingCriteria) (rows : List SwingRow) (fund : SwingFund)
        (latest prev : SwingRow) (rest : List SwingRow),
      rows.reverse = latest :: prev :: rest → 50 ≤ rows.length →
      (check_swing_criteria c (some rows) fund).1 = true →
      (check_swing_criteria c (some rows) fund).2.2.1 = indiaEntrySpec c latest prev ∧
      (check_swing_criteria c (some rows) fund).2.2.1 ≠ "none") ∧
    (∀ (c : AustraliaSwingCriteria) (rows : List SwingRow) (fund : SwingFund)
        (latest prev : SwingRow) (rest : List SwingRow),
      rows.reverse = latest :: prev :: rest → 50 ≤ rows.length →
      (australia_check_swing_criteria c (some rows) fund).1 = true →
      (australia_check_swing_criteria c (some rows) fund).2.2.1
        = australiaEntrySpec c latest prev ∧
      (australia_check_swing_criteria c (some rows) fund).2.2.1 ≠ "none") := by
  constructor
  · intro c rows fund latest prev rest hrev hlen hpass
    rw [check_swing_reduces c rows fund latest prev rest hrev hlen] at hpass ⊢
    obtain ⟨h1, h2, h3⟩ := indiaSwingEval_passes_gates c latest prev fund hpass
    rw [indiaSwingEval_entry c latest prev fund h1 h2 h3]
    exact ⟨rfl, indiaEntrySpec_ne_none c latest prev⟩
  · intro c rows fund latest prev rest hrev hlen hpass
    rw [australia_check_swing_reduces c rows fund latest prev rest hrev hlen] at hpass ⊢
    obtain ⟨h1, h2, h3⟩ := australiaSwingEval_passes_gates c latest prev fund hpass
    rw [australiaSwingEval_entry c latest prev fund h1 h2 h3]
    exact ⟨rfl, australiaEntrySpec_ne_none c latest prev⟩

/-- C1 witness: the amended theorem applied to the concrete passing
input of the counterexample. -/
theorem c1_entry_type_priority_witness :
    (check_swing_criteria swingCriteria (some c1Rows) c1Fund).2.2.1
      = indiaEntrySpec swingCriteria c1Latest c1Prev ∧
    (check_swing_criteria swingCriteria (some c1Rows) c1Fund).2.2.1 ≠ "none" :=
  c1_entry_type_priority.1 swingCriteria c1Rows c1Fund c1Latest c1Prev
    ((List.replicate 48 fillerRow).reverse)
    (by with_unfolding_all decide) (by with_unfolding_all decide)
    (by with_unfolding_all decide)

/-! ## Claim C3 -/

/-- C3 counterexample: an unknown entry type does not fail loudly; both
`calculate_targets` implementations silently return the trend-follow
multiplier pair for it (India 1.12/0.94, Australia 1.15/0.94 of price
100). -/
theorem c3_counterexample :
    calculate_targets 100 "unknown_type" = (112, 94) ∧
    australia_calculate_targets 100 "unknown_type" = (115, 94) := by
  with_unfolding_all decide

/-- C3 (amended): target and stop-loss derivation is a fixed lookup
keyed by entry type — India: breakout (1.12, 0.95), pullback
(1.10, 0.93), trend_follow/macd_cross/ma_cross (1.12, 0.94); Australia:
breakout (1.15, 0.95), pullback (1.12, 0.93), others (1.15, 0.94) —
each multiplier applied to the current price and rounded to 2 decimal
places; an entry type with no table entry does NOT raise: it silently
receives the default (trend-follow) multiplier pair. -/
theorem c3_targets_lookup :
    (∀ p : ℚ,
      calculate_targets p "breakout" = (round2 (p * (112/100)), round2 (p * (95/100))) ∧
      calculate_targets p "pullback" = (round2 (p * (110/100)), round2 (p * (93/100))) ∧
      calculate_targets p "trend_follow" = (round2 (p * (112/100)), round2 (p * (94/100))) ∧
      calculate_targets p "macd_cross" = (round2 (p * (112/100)), round2 (p * (94/100))) ∧
      calculate_targets p "ma_cross" = (round2 (p * (112/100)), round2 (p * (94/100)))) ∧
    (∀ (p : ℚ) (e : String), e ≠ "breakout" → e ≠ "pullback" →
      calculate_targets p e = (round2 (p * (112/100)), round2 (p * (94/100)))) ∧
    (∀ p : ℚ,
      australia_calculate_targets p "breakout"
        = (round2 (p * (115/100)), round2 (p * (95/100))) ∧
      australia_calculate_targets p "pullback"
        = (round2 (p * (112/100)), round2 (p * (93/100))) ∧
      australia_calculate_targets p "trend_follow"
        = (round2 (p * (115/100)), round2 (p * (94/100))) ∧
      australia_calculate_targets p "macd_cross"
        = (round2 (p * (115/100)), round2 (p * (94/100))) ∧
      australia_calculate_targets p "ma_cross"
        = (round2 (p * (115/100)), round2 (p * (94/100)))) ∧
    (∀ (p : ℚ) (e : String), e ≠ "breakout" → e ≠ "pullback" →
      australia_calculate_targets p e = (round2 (p * (115/100)), round2 (p * (94/100)))) := by
  refine ⟨fun p => ?_, fun p e h1 h2 => ?_, fun p => ?_, fun p e h1 h2 => ?_⟩
  · refine ⟨?_, ?_, ?_, ?_, ?_⟩ <;> simp [calculate_targets]
  · rw [calculate_targets, if_neg h1, if_neg h2]
  · refine ⟨?_, ?_, ?_, ?_, ?_⟩ <;> simp [australia_calculate_targets]
  · rw [australia_calculate_targets, if_neg h1, if_neg h2]

/-- C3 witness: the fall-through branch of the amended theorem at a
concrete price and unmapped entry type. -/
theorem c3_targets_lookup_witness :
    calculate_targets 100 "foo" = (round2 (100 * (112/100)), round2 (100 * (94/100))) :=
  c3_targets_lookup.2.1 100 "foo" (by decide) (by decide)

/-! ## Claim C6 -/

/-- C6 counterexample: a bar where the current histogram is 0 (hence
`≥ 0`) and the prior histogram is -1 (`≤ 0`) — a sign change per the
claim's definition — yet the passing evaluation does not classify the
entry as "macd_cross" (the code requires a strictly positive current
histogram). -/
theorem c6_counterexample :
    (0:ℚ) ≤ c6Latest.macdHist.getD 0 ∧ c6Prev.macdHist.getD 0 ≤ 0 ∧
    (check_swing_criteria swingCriteria (some c6Rows) c6Fund).1 = true ∧
    (check_swing_criteria swingCriteria (some c6Rows) c6Fund).2.2.1 ≠ "macd_cross" := by
  with_unfolding_all decide

/-- C6 (amended): in a passing swing evaluation (India or Australia),
the entry type is "macd_cross" exactly when the MACD line exceeds the
signal line, the current histogram is strictly positive (> 0, not ≥ 0),
and the immediately prior bar's histogram was ≤ 0; in particular it is
never assigned when the previous bar's histogram was already positive. -/
theorem c6_fresh_macd_crossover :
    (∀ (c : SwingCriteria) (rows : List SwingRow) (fund : SwingFund)
        (latest prev : SwingRow) (rest : List SwingRow),
      rows.reverse = latest :: prev :: rest → 50 ≤ rows.length →
      (check_swing_criteria c (some rows) fund).1 = true →
      ((check_swing_criteria c (some rows) fund).2.2.1 = "macd_cross" ↔
        (latest.macdSignal.getD 0 < latest.macd.getD 0 ∧ 0 < latest.macdHist.getD 0 ∧
          prev.macdHist.getD 0 ≤ 0))) ∧
    (∀ (c : AustraliaSwingCriteria) (rows : List SwingRow) (fund : SwingFund)
        (latest prev : SwingRow) (rest : List SwingRow),
      rows.reverse = latest :: prev :: rest → 50 ≤ rows.length →
      (australia_check_swing_criteria c (some rows) fund).1 = true →
      ((australia_check_swing_criteria c (some rows) fund).2.2.1 = "macd_cross" ↔
        (latest.macdSignal.getD 0 < latest.macd.getD 0 ∧ 0 < latest.macdHist.getD 0 ∧
          prev.macdHist.getD 0 ≤ 0))) := by
  constructor
  · intro c rows fund latest prev rest hrev hlen hpass
    rw [check_swing_reduces c rows fund latest prev rest hrev hlen] at hpass ⊢
    obtain ⟨h1, h2, h3⟩ := indiaSwingEval_passes_gates c latest prev fund hpass
    rw [indiaSwingEval_entry c latest prev fund h1 h2 h3]
    exact indiaEntrySpec_macd_cross_iff c latest prev
  · intro c rows fund latest prev rest hrev hlen hpass
    rw [australia_check_swing_reduces c rows fund latest prev rest hrev hlen] at hpass ⊢
    obtain ⟨h1, h2, h3⟩ := australiaSwingEval_passes_gates c latest prev fund hpass
    rw [australiaSwingEval_entry c latest prev fund h1 h2 h3]
    exact australiaEntrySpec_macd_cross_iff c latest prev

/-- C6 witness: the amended theorem applied to the concrete passing
input of the C6 counterexample. -/
theorem c6_fresh_macd_crossover_witness :
    (check_swing_criteria swingCriteria (some c6Rows) c6Fund).2.2.1 = "macd_cross" ↔
      (c6Latest.macdSignal.getD 0 < c6Latest.macd.getD 0 ∧ 0 < c6Latest.macdHist.getD 0 ∧
        c6Prev.macdHist.getD 0 ≤ 0) :=
  c6_fresh_macd_crossover.1 swingCriteria c6Rows c6Fund c6Latest c6Prev
    ((List.replicate 48 fillerRow).reverse)
    (by with_unfolding_all decide) (by with_unfolding_all decide)
    (by with_unfolding_all decide)

/-! ## Claim C7 -/

/-- C7: the BTST directional-gain band — a day gain within [2.0, 3.5]
banks the full 30 points and evaluation continues; a gain above 3.5
banks only 15 points with the cautionary overbought reason and
evaluation continues; a gain below 2.0 immediately rejects with
passed = false, score 0 and a single reason whose text contains
"below 2%", independent of all other inputs (no further check is
evaluated). -/
theorem c7_btst_gain_band :
    (∀ (current : CurrentData) (df : Option BtstDF) (fund : BtstFund),
      2 ≤ current.dayChangePct → current.dayChangePct ≤ 35/10 →
      check_btst_criteria btstCriteria current df fund
        = checkBtstRest btstCriteria current df fund 30 [.gainIdeal current.dayChangePct]) ∧
    (∀ (current : CurrentData) (df : Option BtstDF) (fund : BtstFund),
      35/10 < current.dayChangePct →
      check_btst_criteria btstCriteria current df fund
        = checkBtstRest btstCriteria current df fund 15 [.gainHigh current.dayChangePct]) ∧
    (∀ (current : CurrentData) (df : Option BtstDF) (fund : BtstFund),
      current.dayChangePct < 2 →
      check_btst_criteria btstCriteria current df fund
        = .ok (false, 0, [.gainBelow current.dayChangePct]) ∧
      ∃ s1 s2 : String,
        joinReasons [.gainBelow current.dayChangePct] = s1 ++ "below 2%" ++ s2) := by
  refine ⟨fun current df fund h1 h2 => ?_, fun current df fund h => ?_,
    fun current df fund h => ?_⟩
  · rw [check_btst_criteria, if_pos ⟨h1, h2⟩]
  · rw [check_btst_criteria, if_neg (fun hc => absurd hc.2 (not_le.mpr h)),
      if_pos (show btstCriteria.maxGainPercent < current.dayChangePct from h)]
  · constructor
    · have h2 : ¬ (35/10 : ℚ) < current.dayChangePct :=
        not_lt.mpr (le_of_lt (lt_of_lt_of_le h (by norm_num)))
      rw [check_btst_criteria, if_neg (fun hc => absurd hc.1 (not_le.mpr h)),
        if_neg (show ¬ btstCriteria.maxGainPercent < current.dayChangePct from h2)]
    · refine ⟨"✗ Gain " ++ toString current.dayChangePct ++ "% (", ")", ?_⟩
      have hlit : ("% (" : String) ++ "below 2%" ++ ")" = "% (below 2%)" := by decide
      calc joinReasons [.gainBelow current.dayChangePct]
          = "✗ Gain " ++ toString current.dayChangePct ++ "% (below 2%)" := rfl
        _ = "✗ Gain " ++ toString current.dayChangePct ++ ("% (" ++ "below 2%" ++ ")") := by
            rw [hlit]
        _ = ("✗ Gain " ++ toString current.dayChangePct ++ "% (") ++ "below 2%" ++ ")" := by
            simp [String.append_assoc]

/-- C7 witness: a symbol with day gain 1.0 (< 2.0) is immediately
rejected with score 0 and the "below 2%" reason. -/
theorem c7_btst_gain_band_witness :
    check_btst_criteria btstCriteria ⟨"X", 100, 1, 50⟩ none ⟨none⟩
      = .ok (false, 0, [.gainBelow 1]) ∧
    ∃ s1 s2 : String, joinReasons [.gainBelow 1] = s1 ++ "below 2%" ++ s2 :=
  c7_btst_gain_band.2.2 ⟨"X", 100, 1, 50⟩ none ⟨none⟩ (by norm_num)

/-! ## Claim C8 -/

/-- C8: a BTST input with day gain 2.5 (inside [2.0, 3.5]), latest
Volume_Ratio 1.8 (≥ 1.5), high proximity 95 (≥ 90), latest close
strictly above the latest EMA_20, and a non-excluded sector is awarded
30+25+20+15+10 = 100 points and passes. -/
theorem c8_btst_full_score (current : CurrentData) (df : BtstDF) (latest : BtstRow)
    (fund : BtstFund) (sec : String)
    (hd : current.dayChangePct = 25/10) (hp : current.highProximityPct = 95)
    (hlast : df.rows.getLast? = some latest)
    (hvrcol : df.hasVolumeRatio = true) (hecol : df.hasEMA20 = true)
    (hvr : latest.volumeRatio = 18/10) (hce : latest.ema20 < latest.close)
    (hsec : fund.sector = some sec) (hnotex : sec ∉ BTST_EXCLUDED_SECTORS) :
    check_btst_criteria btstCriteria current (some df) fund
      = .ok (true, 100, [.gainIdeal (25/10), .volGood (18/10), .nearHigh 95, .aboveEma20,
          .sectorOk sec]) := by
  have hband : btstCriteria.minGainPercent ≤ current.dayChangePct ∧
      current.dayChangePct ≤ btstCriteria.maxGainPercent := by
    rw [hd]; exact ⟨by norm_num [btstCriteria], by norm_num [btstCriteria]⟩
  rw [check_btst_criteria, if_pos hband, hd]
  norm_num [checkBtstRest, btstTrendStep, hlast, hvrcol, hecol, hp, hvr, hsec, hce,
    hnotex, btstCriteria]

/-- C8 witness: the theorem instantiated at a concrete full-score
input. -/
theorem c8_btst_full_score_witness :
    check_btst_criteria btstCriteria ⟨"X", 100, 25/10, 95⟩
      (some ⟨[⟨100, 99, 18/10⟩], true, true⟩) ⟨some "Auto"⟩
      = .ok (true, 100, [.gainIdeal (25/10), .volGood (18/10), .nearHigh 95, .aboveEma20,
          .sectorOk "Auto"]) :=
  c8_btst_full_score ⟨"X", 100, 25/10, 95⟩ ⟨[⟨100, 99, 18/10⟩], true, true⟩
    ⟨100, 99, 18/10⟩ ⟨some "Auto"⟩ "Auto" rfl rfl rfl rfl rfl rfl
    (by norm_num) rfl (by decide)

/-! ## Claim C10 -/

theorem checkBtstRest_skips (c : BTSTCriteria) (current : CurrentData) (df : Option BtstDF)
    (fund : BtstFund) (s0 : ℚ) (r0 : List BtstReason)
    (hsafe : df = none ∨ ∃ d, df = some d ∧ d.hasEMA20 = false ∧
      (d.rows = [] ∨ d.hasVolumeRatio = false)) :
    checkBtstRest c current df fund s0 r0 = .ok
      (decide (60 ≤ s0 + (if 90 ≤ current.highProximityPct then (20:ℚ)
          else if 80 ≤ current.highProximityPct then 15 else 5)
        + (if fund.sector.getD "Unknown" ∈ BTST_EXCLUDED_SECTORS then (0:ℚ) else 10)),
       s0 + (if 90 ≤ current.highProximityPct then (20:ℚ)
          else if 80 ≤ current.highProximityPct then 15 else 5)
        + (if fund.sector.getD "Unknown" ∈ BTST_EXCLUDED_SECTORS then (0:ℚ) else 10),
       r0 ++ (if 90 ≤ current.highProximityPct
            then [BtstReason.nearHigh current.highProximityPct]
          else if 80 ≤ current.highProximityPct
            then [BtstReason.nearHigh80 current.highProximityPct]
          else [BtstReason.notNearHigh current.highProximityPct])
        ++ (if fund.sector.getD "Unknown" ∈ BTST_EXCLUDED_SECTORS
            then [BtstReason.sectorExcluded (fund.sector.getD "Unknown")]
            else [BtstReason.sectorOk (fund.sector.getD "Unknown")])) := by
  rcases hsafe with rfl | ⟨d, rfl, hec, hvv⟩
  · simp only [checkBtstRest, btstTrendStep]
    split_ifs <;> norm_num
  · rcases hvv with hrow | hcol
    · simp only [checkBtstRest, btstTrendStep, hec, hrow, List.getLast?_nil,
        Bool.false_eq_true, if_false]
      split_ifs <;> norm_num
    · cases hl : d.rows.getLast? <;>
        simp only [checkBtstRest, btstTrendStep, hec, hcol, hl, Bool.false_eq_true,
          if_false] <;>
        split_ifs <;> norm_num

/-- C10 counterexample: an empty DataFrame that nevertheless has an
EMA_20 column makes `check_btst_criteria` raise — the
trend-confirmation step checks only `is not None` and column
membership, not emptiness, before calling `iloc[-1]`.  This falsifies
the claim's "None, empty, or lacks the columns → does not raise" for
the empty-with-EMA_20-column case. -/
theorem c10_counterexample :
    check_btst_criteria btstCriteria ⟨"X", 100, 25/10, 95⟩
      (some ⟨[], false, true⟩) ⟨some "Auto"⟩
      = .error "single positional indexer is out-of-bounds" := by
  with_unfolding_all decide

/-- C10 (amended): for a BTST input with day gain ≥ 2.0, if the
historical DataFrame is None, or lacks the EMA_20 column while being
empty or lacking the Volume_Ratio column, `check_btst_criteria` does
not raise; the volume and trend checks contribute 0 points each, the
returned score is at most 60, and the evaluation passes exactly when
the gain lies within the band (≤ 3.5), high proximity is ≥ 90, and the
sector is not excluded — landing exactly on the 60-point threshold.
(The original claim's "empty" alternative is narrowed: an empty frame
that still has an EMA_20 column raises, see the counterexample.) -/
theorem c10_btst_missing_columns (current : CurrentData) (df : Option BtstDF)
    (fund : BtstFund) (hd : 2 ≤ current.dayChangePct)
    (hsafe : df = none ∨ ∃ d, df = some d ∧ d.hasEMA20 = false ∧
      (d.rows = [] ∨ d.hasVolumeRatio = false)) :
    (∃ r, check_btst_criteria btstCriteria current df fund = .ok r) ∧
    (∀ (p : Bool) (s : ℚ) (rs : List BtstReason),
      check_btst_criteria btstCriteria current df fund = .ok (p, s, rs) →
      s ≤ 60 ∧
      (p = true ↔ (current.dayChangePct ≤ 35/10 ∧ 90 ≤ current.highProximityPct ∧
        fund.sector.getD "Unknown" ∉ BTST_EXCLUDED_SECTORS))) := by
  have hgain : check_btst_criteria btstCriteria current df fund
      = checkBtstRest btstCriteria current df fund
          (if current.dayChangePct ≤ 35/10 then 30 else 15)
          (if current.dayChangePct ≤ 35/10 then [.gainIdeal current.dayChangePct]
            else [.gainHigh current.dayChangePct]) := by
    by_cases hb : current.dayChangePct ≤ 35/10
    · rw [if_pos hb, if_pos hb, check_btst_criteria, if_pos ⟨hd, hb⟩]
    · rw [if_neg hb, if_neg hb, check_btst_criteria,
        if_neg (fun hc => absurd hc.2 hb),
        if_pos (show btstCriteria.maxGainPercent < current.dayChangePct from not_le.mp hb)]
  rw [hgain, checkBtstRest_skips btstCriteria current df fund _ _ hsafe]
  constructor
  · exact ⟨_, rfl⟩
  · intro p s rs heq
    simp only [Except.ok.injEq, Prod.mk.injEq] at heq
    obtain ⟨hpe, hse, _⟩ := heq
    subst hpe hse
    constructor
    · split_ifs <;> norm_num
    · rw [decide_eq_true_eq]
      by_cases hb : current.dayChangePct ≤ 35/10 <;>
      by_cases h90 : (90:ℚ) ≤ current.highProximityPct <;>
      by_cases h80 : (80:ℚ) ≤ current.highProximityPct <;>
      by_cases hsec : fund.sector.getD "Unknown" ∈ BTST_EXCLUDED_SECTORS <;>
        (simp only [hb, h90, h80, hsec, if_true, if_false, not_true, not_false_iff,
          iff_true, iff_false, ite_true, ite_false, if_pos, if_neg, not_true_eq_false,
          not_false_eq_true, and_true, true_and, and_false, false_and];
         norm_num)

/-- C10 witness: the amended theorem at a concrete in-band input with a
missing DataFrame: the score is the exact threshold 60 and the symbol
passes. -/
theorem c10_btst_missing_columns_witness :
    (∃ r, check_btst_criteria btstCriteria ⟨"X", 100, 25/10, 95⟩ none ⟨some "Auto"⟩
      = .ok r) ∧
    (∀ (p : Bool) (s : ℚ) (rs : List BtstReason),
      check_btst_criteria btstCriteria ⟨"X", 100, 25/10, 95⟩ none ⟨some "Auto"⟩
        = .ok (p, s, rs) →
      s ≤ 60 ∧
      (p = true ↔ ((25/10:ℚ) ≤ 35/10 ∧ (90:ℚ) ≤ 95 ∧
        (some "Auto" : Option String).getD "Unknown" ∉ BTST_EXCLUDED_SECTORS))) :=
  c10_btst_missing_columns ⟨"X", 100, 25/10, 95⟩ none ⟨some "Auto"⟩
    (by norm_num) (Or.inl rfl)

/-! ## Claim C2 -/

theorem checkBtstRest_ok (c : BTSTCriteria) (current : CurrentData) (df : Option BtstDF)
    (fund : BtstFund) (s0 : ℚ) (r0 : List BtstReason) (p : Bool) (s : ℚ)
    (rs : List BtstReason)
    (h : checkBtstRest c current df fund s0 r0 = .ok (p, s, rs)) :
    p = decide (60 ≤ s) := by
  rw [checkBtstRest.eq_def] at h
  rcases hts : btstTrendStep df with e | ⟨ts, tr⟩ <;> rw [hts] at h
  · simp at h
  · simp only [Except.ok.injEq, Prod.mk.injEq] at h
    obtain ⟨hp, hs, _⟩ := h
    rw [← hp, ← hs]

theorem check_btst_criteria_ok_passes (c : BTSTCriteria) (current : CurrentData)
    (df : Option BtstDF) (fund : BtstFund) (p : Bool) (s : ℚ) (rs : List BtstReason)
    (h : check_btst_criteria c current df fund = .ok (p, s, rs)) (hp : p = true) :
    60 ≤ s := by
  subst hp
  rw [check_btst_criteria] at h
  split_ifs at h
  · exact of_decide_eq_true (checkBtstRest_ok c current df fund _ _ _ _ _ h).symm
  · exact of_decide_eq_true (checkBtstRest_ok c current df fund _ _ _ _ _ h).symm
  · simp at h

theorem indiaSwingEval_passes_score (c : SwingCriteria) (latest prev : SwingRow)
    (fund : SwingFund) (h : (indiaSwingEval c latest prev fund).1 = true) :
    65 ≤ (indiaSwingEval c latest prev fund).2.1 := by
  by_cases h1 : fund.marketCap.getD 0 < c.minMarketCap
  · rw [indiaSwingEval, if_pos h1] at h; simp at h
  by_cases h2 : c.maxDebtToEquity < fund.debtToEquity.getD 999
  · rw [indiaSwingEval, if_neg h1, if_pos h2] at h; simp at h
  by_cases h3 : fund.roe.getD 0 < c.minRoe
  · rw [indiaSwingEval, if_neg h1, if_neg h2, if_pos h3] at h; simp at h
  rw [indiaSwingEval, if_neg h1, if_neg h2, if_neg h3] at h ⊢
  dsimp only at h ⊢
  exact of_decide_eq_true h

theorem check_swing_passes_score (c : SwingCriteria) (historical : Option (List SwingRow))
    (fund : SwingFund) (h : (check_swing_criteria c historical fund).1 = true) :
    65 ≤ (check_swing_criteria c historical fund).2.1 := by
  rcases historical with _ | rows
  · simp [check_swing_criteria] at h
  by_cases h50 : rows.length < 50
  · exact absurd h (by simp [check_swing_criteria, if_pos h50])
  rcases hr : rows.reverse with _ | ⟨latest, rest⟩
  · exact absurd (by simp [List.reverse_eq_nil_iff.mp hr] : rows.length < 50) h50
  rcases rest with _ | ⟨prev, rest'⟩
  · refine absurd ?_ h50
    have hrows : rows = [latest] := by
      rw [← List.reverse_reverse rows, hr]; rfl
    simp [hrows]
  rw [check_swing_reduces c rows fund latest prev rest' hr (not_lt.mp h50)] at h ⊢
  exact indiaSwingEval_passes_score c latest prev fund h

/-- Looking up in an association list of nonnegative values with a
nonnegative default yields a nonnegative result. -/
theorem lookup_getD_nonneg (s : String) (l : List (String × ℚ))
    (hl : ∀ p ∈ l, 0 ≤ p.2) : 0 ≤ (l.lookup s).getD 1 := by
  induction l with
  | nil => norm_num [List.lookup]
  | cons p t ih =>
    obtain ⟨k, v⟩ := p
    cases hb : s == k
    · simpa [List.lookup, hb] using ih (fun q hq => hl q (List.mem_cons_of_mem _ hq))
    · have hv : 0 ≤ v := hl (k, v) (List.mem_cons_self _ _)
      simp [List.lookup, hb, hv]

/-- Every sector weight looked up from the Australian table (default
1.0) is nonnegative. -/
theorem sector_weight_nonneg (s : String) :
    0 ≤ (sector_weights.lookup s).getD 1 :=
  lookup_getD_nonneg s sector_weights (by norm_num [sector_weights])

theorem australiaSwingEval_passes_score (c : AustraliaSwingCriteria) (latest prev : SwingRow)
    (fund : SwingFund) (h : (australiaSwingEval c latest prev fund).1 = true) :
    60 * (australiaSwingEval c latest prev fund).2.2.2.2
      ≤ (australiaSwingEval c latest prev fund).2.1 := by
  by_cases h1 : fund.marketCap.getD 0 < c.minMarketCap
  · rw [australiaSwingEval, if_pos h1] at h; simp at h
  by_cases h2 : c.maxDebtToEquity < fund.debtToEquity.getD 999
  · rw [australiaSwingEval, if_neg h1, if_pos h2] at h; simp at h
  by_cases h3 : fund.roe.getD 0 < c.minRoe
  · rw [australiaSwingEval, if_neg h1, if_neg h2, if_pos h3] at h; simp at h
  rw [australiaSwingEval, if_neg h1, if_neg h2, if_neg h3] at h ⊢
  dsimp only at h ⊢
  exact mul_le_mul_of_nonneg_right (of_decide_eq_true h)
    (sector_weight_nonneg (fund.sector.getD "Unknown"))

theorem australia_check_swing_passes_score (c : AustraliaSwingCriteria)
    (historical : Option (List SwingRow)) (fund : SwingFund)
    (h : (australia_check_swing_criteria c historical fund).1 = true) :
    60 * (australia_check_swing_criteria c historical fund).2.2.2.2
      ≤ (australia_check_swing_criteria c historical fund).2.1 := by
  rcases historical with _ | rows
  · simp [australia_check_swing_criteria] at h
  by_cases h50 : rows.length < 50
  · exact absurd h (by simp [australia_check_swing_criteria, if_pos h50])
  rcases hr : rows.reverse with _ | ⟨latest, rest⟩
  · exact absurd (by simp [List.reverse_eq_nil_iff.mp hr] : rows.length < 50) h50
  rcases rest with _ | ⟨prev, rest'⟩
  · refine absurd ?_ h50
    have hrows : rows = [latest] := by
      rw [← List.reverse_reverse rows, hr]; rfl
    simp [hrows]
  rw [australia_check_swing_reduces c rows fund latest prev rest' hr (not_lt.mp h50)] at h ⊢
  exact australiaSwingEval_passes_score c latest prev fund h

theorem evalBtstSymbol_score (c : BTSTCriteria) (inp : BtstInput) (cand : BTSTCandidate)
    (h : evalBtstSymbol c inp = some cand) : 60 ≤ cand.score := by
  rcases hcd : inp.currentData with _ | current
  · simp [evalBtstSymbol, hcd] at h
  rcases hh : inp.historical with _ | histRes
  · simp [evalBtstSymbol, hcd, hh] at h
  rcases histRes with e | df
  · simp [evalBtstSymbol, hcd, hh] at h
  simp only [evalBtstSymbol, hcd, hh] at h
  rcases hchk : check_btst_criteria c current (some df)
      (inp.fundamentals.getD ⟨some "Unknown"⟩) with e | r <;> rw [hchk] at h
  · simp at h
  dsimp only at h
  by_cases hp : r.1 = true
  · rw [if_pos hp] at h
    injection h with h'
    subst h'
    exact check_btst_criteria_ok_passes c current (some df)
      (inp.fundamentals.getD ⟨some "Unknown"⟩) r.1 r.2.1 r.2.2 hchk hp
  · rw [if_neg hp] at h
    simp at h

theorem evalSwingSymbol_score (c : SwingCriteria) (inp : SwingInput) (cand : SwingCandidate)
    (h : evalSwingSymbol c inp = some cand) : 65 ≤ cand.score := by
  rcases hf : inp.fundamentals with _ | fund
  · simp [evalSwingSymbol, hf] at h
  rcases hh : inp.historical with _ | histRes
  · simp [evalSwingSymbol, hf, hh] at h
  rcases histRes with e | rows
  · simp [evalSwingSymbol, hf, hh] at h
  simp only [evalSwingSymbol, hf, hh] at h
  by_cases hp : (check_swing_criteria c (some rows) fund).1 = true
  · rw [if_pos hp] at h
    have hs := check_swing_passes_score c (some rows) fund hp
    rcases hl : rows.getLast? with _ | latest <;> rw [hl] at h
    · simp at h
    rcases hmc : fund.marketCap with _ | mc <;> rw [hmc] at h
    · simp at h
    rcases hsec : fund.sector with _ | sec <;> rw [hsec] at h
    · simp at h
    rcases hdte : fund.debtToEquity with _ | dte <;> rw [hdte] at h
    · simp at h
    rcases hroe : fund.roe with _ | roeVal <;> rw [hroe] at h
    · simp at h
    injection h with h'
    subst h'
    exact hs
  · rw [if_neg hp] at h
    simp at h

theorem evalAustraliaSymbol_score (c : AustraliaSwingCriteria) (inp : SwingInput)
    (cand : AustraliaSwingCandidate) (h : evalAustraliaSymbol c inp = some cand) :
    60 * cand.sectorWeight ≤ cand.score := by
  rcases hf : inp.fundamentals with _ | fund
  · simp [evalAustraliaSymbol, hf] at h
  rcases hh : inp.historical with _ | histRes
  · simp [evalAustraliaSymbol, hf, hh] at h
  rcases histRes with e | rows
  · simp [evalAustraliaSymbol, hf, hh] at h
  simp only [evalAustraliaSymbol, hf, hh] at h
  by_cases hp : (australia_check_swing_criteria c (some rows) fund).1 = true
  · rw [if_pos hp] at h
    have hs := australia_check_swing_passes_score c (some rows) fund hp
    rcases hl : rows.getLast? with _ | latest <;> rw [hl] at h
    · simp at h
    rcases hmc : fund.marketCap with _ | mc <;> rw [hmc] at h
    · simp at h
    rcases hsec : fund.sector with _ | sec <;> rw [hsec] at h
    · simp at h
    rcases hdte : fund.debtToEquity with _ | dte <;> rw [hdte] at h
    · simp at h
    rcases hroe : fund.roe with _ | roeVal <;> rw [hroe] at h
    · simp at h
    injection h with h'
    subst h'
    exact hs
  · rw [if_neg hp] at h
    simp at h

/-- Membership in a scan result implies production by the per-symbol
evaluator. -/
theorem mem_scan_btst (c : BTSTCriteria) (n : ℕ) (inputs : List BtstInput)
    (cand : BTSTCandidate) (h : cand ∈ scan_for_btst c n inputs) :
    ∃ inp, evalBtstSymbol c inp = some cand := by
  have h1 : cand ∈ sortByScoreDesc (fun x => x.score) (btstCandidates c inputs) :=
    List.mem_of_mem_take h
  rw [sortByScoreDesc, List.mem_insertionSort] at h1
  rw [btstCandidates] at h1
  obtain ⟨inp, _, heval⟩ := List.mem_filterMap.mp h1
  exact ⟨inp, heval⟩

theorem mem_scan_swing (c : SwingCriteria) (n : ℕ) (inputs : List SwingInput)
    (cand : SwingCandidate) (h : cand ∈ scan_for_swing c n inputs) :
    ∃ inp, evalSwingSymbol c inp = some cand := by
  have h1 : cand ∈ sortByScoreDesc (fun x => x.score) (swingCandidates c inputs) :=
    List.mem_of_mem_take h
  rw [sortByScoreDesc, List.mem_insertionSort] at h1
  rw [swingCandidates] at h1
  obtain ⟨inp, _, heval⟩ := List.mem_filterMap.mp h1
  exact ⟨inp, heval⟩

theorem mem_scan_australia (c : AustraliaSwingCriteria) (n : ℕ) (inputs : List SwingInput)
    (cand : AustraliaSwingCandidate) (h : cand ∈ australia_scan_for_swing c n inputs) :
    ∃ inp, evalAustraliaSymbol c inp = some cand := by
  have h1 : cand ∈ sortByScoreDesc (fun x => x.score) (australiaCandidates c inputs) :=
    List.mem_of_mem_take h
  rw [sortByScoreDesc, List.mem_insertionSort] at h1
  rw [australiaCandidates] at h1
  obtain ⟨inp, _, heval⟩ := List.mem_filterMap.mp h1
  exact ⟨inp, heval⟩

def c2Latest : SwingRow :=
  ⟨100, some 90, some 80, some 70, some 50, some 0, some 0, some 0, some 1, some 50⟩

def c2Prev : SwingRow :=
  ⟨99, some 90, some 80, some 70, some 50, some 0, some 0, some 0, some 1, some 50⟩

def c2Fund : SwingFund := ⟨some 60000, some (5/10), some 12, some "Information Technology"⟩

def c2Rows : List SwingRow := List.replicate 48 fillerRow ++ [c2Prev, c2Latest]

def c2Input : SwingInput := ⟨"XYZ.AX", some c2Fund, some (.ok c2Rows)⟩

/-- C2 counterexample: an Australian scan whose single candidate passes
on an unweighted score of exactly 60 but, being in the Information
Technology sector (weight 0.8), is reported in the ranked output with
score 52 < 60 — so a Candidate CAN appear in ranked output with a score
below the policy's minimum threshold. -/
theorem c2_counterexample :
    ((australia_scan_for_swing australiaSwingCriteria 15 [c2Input]).map
      (fun x => x.score)) = [52] ∧ (52:ℚ) < 60 := by
  constructor
  · with_unfolding_all decide
  · norm_num

/-- C2 (amended): the pass/fail comparison is always made against the
unweighted score (60 for BTST and Australia-swing, 65 for India-swing),
so every BTST candidate in ranked output has score ≥ 60, every
India-swing candidate has score ≥ 65, and every Australia-swing
candidate has reported score ≥ 60 × its sector weight; since sector
weights below 1.0 exist (e.g. Information Technology 0.8), the reported
Australian score itself can drop below 60 even though the candidate
passed the unweighted threshold. -/
theorem c2_min_score_threshold :
    (∀ (c : BTSTCriteria) (n : ℕ) (inputs : List BtstInput) (cand : BTSTCandidate),
      cand ∈ scan_for_btst c n inputs → 60 ≤ cand.score) ∧
    (∀ (c : SwingCriteria) (n : ℕ) (inputs : List SwingInput) (cand : SwingCandidate),
      cand ∈ scan_for_swing c n inputs → 65 ≤ cand.score) ∧
    (∀ (c : AustraliaSwingCriteria) (n : ℕ) (inputs : List SwingInput)
        (cand : AustraliaSwingCandidate),
      cand ∈ australia_scan_for_swing c n inputs → 60 * cand.sectorWeight ≤ cand.score) := by
  refine ⟨fun c n inputs cand h => ?_, fun c n inputs cand h => ?_,
    fun c n inputs cand h => ?_⟩
  · obtain ⟨inp, heval⟩ := mem_scan_btst c n inputs cand h
    exact evalBtstSymbol_score c inp cand heval
  · obtain ⟨inp, heval⟩ := mem_scan_swing c n inputs cand h
    exact evalSwingSymbol_score c inp cand heval
  · obtain ⟨inp, heval⟩ := mem_scan_australia c n inputs cand h
    exact evalAustraliaSymbol_score c inp cand heval

/-- The single candidate produced by the C2 counterexample scan,
spelled out. -/
def c2Cand : AustraliaSwingCandidate :=
  { symbol := "XYZ", currentPrice := 100, marketCap := 60000,
    sector := "Information Technology", rsi := 50, macdSignal := "bearish",
    emaAlignment := true, volumeRatio := 1, debtToEquity := 5/10, roe := 12,
    week52HighProximity := 50, score := 52, sectorWeight := 8/10,
    entryType := "trend_follow", target := 115, stopLoss := 94,
    reasons := [.fundamentalsOk 60000 (5/10) 12, .aboveAllMAs, .rsiIdeal 50,
      .low52wProx 50, .volWeak 1, .plainSector "Information Technology"] }

set_option maxRecDepth 2000 in
/-- The counterexample scan evaluates to exactly the candidate above. -/
theorem c2_scan_eq : australia_scan_for_swing australiaSwingCriteria 15 [c2Input]
    = [c2Cand] := by
  with_unfolding_all rfl

/-- C2 witness: the amended theorem applied to the concrete Australian
scan of the counterexample: its candidate has weight 0.8 and reported
score 52 ≥ 60 × 0.8 = 48. -/
theorem c2_min_score_threshold_witness :
    60 * c2Cand.sectorWeight ≤ c2Cand.score :=
  c2_min_score_threshold.2.2 australiaSwingCriteria 15 [c2Input] c2Cand
    (by rw [c2_scan_eq]; exact List.mem_singleton_self _)

/-! ## Claim C4 -/

/-- A symbol whose indicator computation raised is skipped by the swing
evaluator. -/
theorem evalSwingSymbol_error (c : SwingCriteria) (inp : SwingInput) (e : String)
    (h : inp.historical = some (.error e)) : evalSwingSymbol c inp = none := by
  rcases hf : inp.fundamentals with _ | fund <;>
    simp [evalSwingSymbol, hf, h]

/-- A symbol whose indicator computation raised is skipped by the BTST
evaluator. -/
theorem evalBtstSymbol_error (c : BTSTCriteria) (inp : BtstInput) (e : String)
    (h : inp.historical = some (.error e)) : evalBtstSymbol c inp = none := by
  rcases hcd : inp.currentData with _ | current <;>
    simp [evalBtstSymbol, hcd, h]

/-- A symbol whose criteria evaluation raised is skipped by the BTST
evaluator. -/
theorem evalBtstSymbol_check_error (c : BTSTCriteria) (inp : BtstInput)
    (current : CurrentData) (df : BtstDF) (e : String)
    (hcd : inp.currentData = some current) (hh : inp.historical = some (.ok df))
    (hchk : check_btst_criteria c current (some df)
      (inp.fundamentals.getD ⟨some "Unknown"⟩) = .error e) :
    evalBtstSymbol c inp = none := by
  simp only [evalBtstSymbol, hcd, hh]
  rw [hchk]

theorem swingCandidates_skip (c : SwingCriteria) (xs ys : List SwingInput)
    (bad : SwingInput) (hbad : evalSwingSymbol c bad = none) :
    swingCandidates c (xs ++ bad :: ys) = swingCandidates c (xs ++ ys) := by
  rw [swingCandidates, swingCandidates, List.filter_append, List.filter_append,
    List.filter_cons]
  by_cases hpre : swingPrefilter c bad
  · rw [if_pos hpre, List.filterMap_append, List.filterMap_append, List.filterMap_cons,
      hbad]
  · rw [if_neg hpre]

theorem btstCandidates_skip (c : BTSTCriteria) (xs ys : List BtstInput)
    (bad : BtstInput) (hbad : evalBtstSymbol c bad = none) :
    btstCandidates c (xs ++ bad :: ys) = btstCandidates c (xs ++ ys) := by
  rw [btstCandidates, btstCandidates, List.filter_append, List.filter_append,
    List.filter_cons]
  by_cases hpre : btstPrefilter c bad
  · rw [if_pos hpre, List.filterMap_append, List.filterMap_append, List.filterMap_cons,
      hbad]
  · rw [if_neg hpre]

/-- C4: per-symbol failure isolation — if one symbol's evaluation
raises (its indicator computation returns an exception, or, for BTST,
its criteria evaluation raises), that symbol is excluded and the scan
of the whole batch equals the scan of the batch without it: every other
symbol is evaluated and scored normally and the ranked list is
returned rather than the exception propagating. -/
theorem c4_per_symbol_isolation :
    (∀ (c : SwingCriteria) (n : ℕ) (xs ys : List SwingInput) (bad : SwingInput)
        (e : String), bad.historical = some (.error e) →
      scan_for_swing c n (xs ++ bad :: ys) = scan_for_swing c n (xs ++ ys)) ∧
    (∀ (c : BTSTCriteria) (n : ℕ) (xs ys : List BtstInput) (bad : BtstInput)
        (e : String), bad.historical = some (.error e) →
      scan_for_btst c n (xs ++ bad :: ys) = scan_for_btst c n (xs ++ ys)) ∧
    (∀ (c : BTSTCriteria) (n : ℕ) (xs ys : List BtstInput) (bad : BtstInput)
        (current : CurrentData) (df : BtstDF) (e : String),
      bad.currentData = some current → bad.historical = some (.ok df) →
      check_btst_criteria c current (some df)
        (bad.fundamentals.getD ⟨some "Unknown"⟩) = .error e →
      scan_for_btst c n (xs ++ bad :: ys) = scan_for_btst c n (xs ++ ys)) := by
  refine ⟨fun c n xs ys bad e h => ?_, fun c n xs ys bad e h => ?_,
    fun c n xs ys bad current df e hcd hh hchk => ?_⟩
  · rw [scan_for_swing, scan_for_swing,
      swingCandidates_skip c xs ys bad (evalSwingSymbol_error c bad e h)]
  · rw [scan_for_btst, scan_for_btst,
      btstCandidates_skip c xs ys bad (evalBtstSymbol_error c bad e h)]
  · rw [scan_for_btst, scan_for_btst,
      btstCandidates_skip c xs ys bad
        (evalBtstSymbol_check_error c bad current df e hcd hh hchk)]

/-- C4 witness: a concrete two-symbol batch where the second symbol's
indicator computation raised — the scan equals the scan of the first
symbol alone. -/
theorem c4_per_symbol_isolation_witness :
    scan_for_swing swingCriteria 15
      [⟨"GOOD.NS", some c1Fund, some (.ok c1Rows)⟩,
       ⟨"BAD.NS", some c1Fund, some (.error "boom")⟩]
    = scan_for_swing swingCriteria 15 [⟨"GOOD.NS", some c1Fund, some (.ok c1Rows)⟩] :=
  c4_per_symbol_isolation.1 swingCriteria 15
    [⟨"GOOD.NS", some c1Fund, some (.ok c1Rows)⟩] []
    ⟨"BAD.NS", some c1Fund, some (.error "boom")⟩ "boom" rfl

/-! ## Claim C9 -/

/-- C9: ranked output is bounded and ordered — for both scanners the
result has length at most `max_results`; it is sorted non-increasing by
score; it is exactly the stable descending sort of the accumulated
candidates truncated AFTER sorting; and the stable sort preserves the
original (symbol-iteration) order of candidates with equal scores: for
every score value, filtering the sorted list to that score yields the
same sequence as filtering the unsorted candidate list. -/
theorem c9_ranked_output :
    (∀ (c : BTSTCriteria) (n : ℕ) (inputs : List BtstInput),
      (scan_for_btst c n inputs).length ≤ n ∧
      (scan_for_btst c n inputs).Pairwise (fun a b => b.score ≤ a.score) ∧
      scan_for_btst c n inputs
        = (sortByScoreDesc (fun x => x.score) (btstCandidates c inputs)).take n ∧
      (∀ s : ℚ, (sortByScoreDesc (fun x => x.score) (btstCandidates c inputs)).filter
          (fun x => x.score == s)
        = (btstCandidates c inputs).filter (fun x => x.score == s))) ∧
    (∀ (c : SwingCriteria) (n : ℕ) (inputs : List SwingInput),
      (scan_for_swing c n inputs).length ≤ n ∧
      (scan_for_swing c n inputs).Pairwise (fun a b => b.score ≤ a.score) ∧
      scan_for_swing c n inputs
        = (sortByScoreDesc (fun x => x.score) (swingCandidates c inputs)).take n ∧
      (∀ s : ℚ, (sortByScoreDesc (fun x => x.score) (swingCandidates c inputs)).filter
          (fun x => x.score == s)
        = (swingCandidates c inputs).filter (fun x => x.score == s))) := by
  refine ⟨fun c n inputs => ⟨?_, ?_, rfl, fun s => ?_⟩,
    fun c n inputs => ⟨?_, ?_, rfl, fun s => ?_⟩⟩
  · exact List.length_take_le n _
  · exact List.Pairwise.sublist (List.take_sublist n _)
      (sortByScoreDesc_pairwise (fun x => x.score) (btstCandidates c inputs))
  · exact filter_sortByScoreDesc (fun x => x.score) s (btstCandidates c inputs)
  · exact List.length_take_le n _
  · exact List.Pairwise.sublist (List.take_sublist n _)
      (sortByScoreDesc_pairwise (fun x => x.score) (swingCandidates c inputs))
  · exact filter_sortByScoreDesc (fun x => x.score) s (swingCandidates c inputs)

/-! ## Claim C5 -/

theorem gainList_nonneg (closes : List ℚ) : ∀ x ∈ gainList closes, 0 ≤ x := by
  intro x hx
  rw [gainList] at hx
  obtain ⟨d, _, hd⟩ := List.mem_map.mp hx
  rcases d with _ | v
  · rw [← hd]
  · rw [← hd]
    dsimp only
    split_ifs with h
    · exact le_of_lt h
    · exact le_refl 0

theorem lossList_nonneg (closes : List ℚ) : ∀ x ∈ lossList closes, 0 ≤ x := by
  intro x hx
  rw [lossList] at hx
  obtain ⟨d, _, hd⟩ := List.mem_map.mp hx
  rcases d with _ | v
  · rw [← hd]
  · rw [← hd]
    dsimp only
    split_ifs with h
    · exact neg_nonneg.mpr (le_of_lt h)
    · exact le_refl 0

theorem rollingMean_nonneg (w : ℕ) (xs : List ℚ) (hxs : ∀ x ∈ xs, 0 ≤ x) (i : ℕ) (m : ℚ)
    (h : (rollingMean w xs)[i]? = some (some m)) : 0 ≤ m := by
  rw [rollingMean, List.getElem?_map] at h
  rcases hr : (List.range xs.length)[i]? with _ | j <;> rw [hr] at h
  · simp at h
  · simp only [Option.map_some'] at h
    injection h with h
    by_cases hw : w ≤ j + 1
    · rw [if_pos hw, Option.some.injEq] at h
      rw [← h]
      apply div_nonneg
      · apply List.sum_nonneg
        intro x hx
        exact hxs x (List.mem_of_mem_take (List.mem_of_mem_drop hx))
      · exact Nat.cast_nonneg w
    · rw [if_neg hw] at h
      exact absurd h (by simp)

/-- C5 counterexample: a constant price series (all bar-over-bar deltas
zero, hence non-negative) has negative-delta average 0 over the full
window, yet the oscillator at that position is NaN (`none`), not 100:
pandas evaluates `0/0` to NaN, which propagates. -/
theorem c5_counterexample :
    (rollingMean 14 (lossList (List.replicate 15 (100:ℚ))))[14]? = some (some 0) ∧
    (RSI (List.replicate 15 (100:ℚ)) 14)[14]? = some none := by
  with_unfolding_all decide

/-- C5 (amended): wherever the oscillator is defined (non-NaN) its
value lies in [0, 100]; and whenever the average magnitude of negative
deltas over the window is zero while the average of positive deltas is
strictly positive (some delta in the window is positive), the
oscillator equals exactly 100.  When ALL deltas in the window are zero
the oscillator is NaN rather than 100 (see the counterexample). -/
theorem c5_rsi_range_and_saturation :
    (∀ (closes : List ℚ) (period i : ℕ) (v : ℚ),
      (RSI closes period)[i]? = some (some v) → 0 ≤ v ∧ v ≤ 100) ∧
    (∀ (closes : List ℚ) (period i : ℕ) (g : ℚ),
      (rollingMean period (gainList closes))[i]? = some (some g) → 0 < g →
      (rollingMean period (lossList closes))[i]? = some (some 0) →
      (RSI closes period)[i]? = some (some 100)) := by
  constructor
  · intro closes period i v h
    rw [RSI, List.getElem?_zipWith_eq_some] at h
    obtain ⟨x, y, hx, hy, hxy⟩ := h
    rcases x with _ | gv
    · simp [rsiFrom] at hxy
    rcases y with _ | lv
    · simp [rsiFrom] at hxy
    have hg : 0 ≤ gv := rollingMean_nonneg period (gainList closes)
      (gainList_nonneg closes) i gv hx
    have hl : 0 ≤ lv := rollingMean_nonneg period (lossList closes)
      (lossList_nonneg closes) i lv hy
    rw [rsiFrom] at hxy
    by_cases h0 : lv = 0
    · rw [if_pos h0] at hxy
      by_cases hg0 : gv = 0
      · rw [if_pos hg0] at hxy
        exact absurd hxy (by simp)
      · rw [if_neg hg0, Option.some.injEq] at hxy
        rw [← hxy]
        norm_num
    · rw [if_neg h0, Option.some.injEq] at hxy
      have hlpos : 0 < lv := lt_of_le_of_ne hl (Ne.symm h0)
      have ht : (0:ℚ) ≤ gv / lv := div_nonneg hg hl
      have h1 : (1:ℚ) ≤ 1 + gv / lv := by linarith
      have hpos : (0:ℚ) < 100 / (1 + gv / lv) := by positivity
      have hle : 100 / (1 + gv / lv) ≤ 100 := div_le_self (by norm_num) h1
      rw [← hxy]
      constructor <;> linarith
  · intro closes period i g hg hgpos hl
    rw [RSI, List.getElem?_zipWith, hg, hl]
    simp [rsiFrom, ne_of_gt hgpos]

def c5AltCloses : List ℚ := [1, 2, 1, 2, 1, 2, 1, 2, 1, 2, 1, 2, 1, 2, 1]

def c5UpCloses : List ℚ := List.replicate 14 (100:ℚ) ++ [101]

/-- C5 witness: the amended theorem applied to two concrete series — an
alternating series whose oscillator value 50 is confirmed to lie in
[0, 100], and a flat-then-up series whose window has loss average 0 and
gain average 1/14 > 0, giving oscillator exactly 100. -/
theorem c5_rsi_range_and_saturation_witness :
    ((0:ℚ) ≤ 50 ∧ (50:ℚ) ≤ 100) ∧ (RSI c5UpCloses 14)[14]? = some (some 100) :=
  ⟨c5_rsi_range_and_saturation.1 c5AltCloses 14 14 50 (by with_unfolding_all decide),
   c5_rsi_range_and_saturation.2 c5UpCloses 14 14 (1/14)
     (by with_unfolding_all decide) (by norm_num) (by with_unfolding_all decide)⟩

end StockScanner
